import Mathlib

/-!
# DirectXCrash: the `D3DApp` application shell

A shallow embedding of `DirectXCrash.h` / `DirectXCrash.cpp`.

* The application object is the record `D3DApp`; every member function is a
  state transformer in the monad `Exec`, which keeps the state reached when a
  `DxException` is thrown (a C++ `throw` does not undo member writes).
* Direct3D, DXGI and Win32 are outside the repository.  The calls made to
  them are appended to a log, and the values they hand back (HRESULTs, the
  feature level, the multisample quality, `DefWindowProc` results, the text of
  a system error) are read from an environment `Env`, indexed by the position
  of the call in the log.  The outcomes of `PeekMessage` are an input of `Run`.
* `int` values are `Int`, `UINT` values are `Nat` reduced modulo `2^32` at
  each conversion, `float` values are rationals and `static_cast<float>` of
  an `int` rounds to 24 significant bits.
* `assert` is modelled as compiled in: a failed assertion ends the program, as
  does a member call through a null pointer.
-/

namespace DirectXCrash

/-! ## Win32 constants (values of the Windows SDK headers) -/

def WM_DESTROY : Int := 0x0002
def WM_SIZE : Int := 0x0005
def WM_ACTIVATE : Int := 0x0006
def WM_QUIT : Int := 0x0012
def WM_GETMINMAXINFO : Int := 0x0024
def WM_MENUCHAR : Int := 0x0120
def WM_MOUSEMOVE : Int := 0x0200
def WM_LBUTTONDOWN : Int := 0x0201
def WM_LBUTTONUP : Int := 0x0202
def WM_RBUTTONDOWN : Int := 0x0204
def WM_RBUTTONUP : Int := 0x0205
def WM_MBUTTONDOWN : Int := 0x0207
def WM_MBUTTONUP : Int := 0x0208
def WM_ENTERSIZEMOVE : Int := 0x0231
def WM_EXITSIZEMOVE : Int := 0x0232

def SIZE_RESTORED : Int := 0
def SIZE_MINIMIZED : Int := 1
def SIZE_MAXIMIZED : Int := 2

def WA_INACTIVE : Int := 0
def MNC_CLOSE : Int := 1

/-- The value `D3D_FEATURE_LEVEL_11_0` of d3dcommon.h. -/
def D3D_FEATURE_LEVEL_11_0 : Int := 0xb000

/-- The macro `LOWORD`: the low 16 bits. -/
def LOWORD (l : Int) : Int := l % 65536

/-- The macro `HIWORD`: bits 16..31. -/
def HIWORD (l : Int) : Int := (l / 65536) % 65536

/-- The macro `MAKELRESULT(l, h)`: two words packed into one value. -/
def MAKELRESULT (l h : Int) : Int := LOWORD l + 65536 * LOWORD h

/-- The macro `FAILED`: an HRESULT is a failure code when it is negative. -/
def FAILED (hr : Int) : Bool := decide (hr < 0)

/-- Conversion of an `int` to `UINT` (32 bits, wraps modulo `2^32`). -/
def toUINT (x : Int) : Nat := (x % 4294967296).toNat

/-- Conversion of a pointer-sized value to `int`: the low 32 bits, read as a
signed number. -/
def toInt32 (x : Int) : Int := (x + 2147483648) % 4294967296 - 2147483648

/-- Values of type `float`: the finite ones are rational numbers. -/
abbrev float := ℚ

/-- The integer nearest to `n` that has at most 24 significant bits, ties going
to the even significand (round-to-nearest-even). -/
def roundTo24 (n : Nat) : Nat :=
  if n < 16777216 then n
  else
    let e := Nat.log2 n - 23
    let q := n / 2 ^ e
    let r := n % 2 ^ e
    if 2 * r < 2 ^ e then q * 2 ^ e
    else if 2 * r = 2 ^ e ∧ q % 2 = 0 then q * 2 ^ e
    else (q + 1) * 2 ^ e

/-- The conversion `static_cast<float>(i)` of an `int`, also applied
implicitly when an `int` is assigned to a `float`. -/
def floatOfInt (i : Int) : float :=
  if 0 ≤ i then ((roundTo24 i.natAbs : Nat) : ℚ) else -((roundTo24 i.natAbs : Nat) : ℚ)

/-! ## Records of the SDK headers that the program fills in -/

inductive DXGI_FORMAT where
  | R32G32B32_FLOAT
  | R32G32_FLOAT
  | R8G8B8A8_UNORM
  | D24_UNORM_S8_UINT
  deriving DecidableEq, Repr

structure DXGI_SAMPLE_DESC where
  Count : Nat
  Quality : Nat
  deriving DecidableEq, Repr

inductive D3D11_USAGE where
  | DEFAULT
  | DYNAMIC
  deriving DecidableEq, Repr

inductive D3D11_BIND where
  | VERTEX_BUFFER
  | CONSTANT_BUFFER
  | DEPTH_STENCIL
  deriving DecidableEq, Repr

structure D3D11_TEXTURE2D_DESC where
  Width : Nat
  Height : Nat
  MipLevels : Nat
  ArraySize : Nat
  Format : DXGI_FORMAT
  SampleDesc : DXGI_SAMPLE_DESC
  Usage : D3D11_USAGE
  BindFlags : D3D11_BIND
  CPUAccessFlags : Nat
  MiscFlags : Nat
  deriving DecidableEq, Repr

structure D3D11_VIEWPORT where
  TopLeftX : float
  TopLeftY : float
  Width : float
  Height : float
  MinDepth : float
  MaxDepth : float
  deriving DecidableEq

structure DXGI_SWAP_CHAIN_DESC where
  Width : Nat
  Height : Nat
  RefreshRateNumerator : Nat
  RefreshRateDenominator : Nat
  Format : DXGI_FORMAT
  SampleDesc : DXGI_SAMPLE_DESC
  BufferCount : Nat
  OutputWindow : Int
  Windowed : Bool
  Flags : Nat
  deriving DecidableEq, Repr

structure D3D11_BUFFER_DESC where
  ByteWidth : Nat
  Usage : D3D11_USAGE
  BindFlags : D3D11_BIND
  CPUAccessWrite : Bool
  deriving DecidableEq, Repr

structure D3D11_INPUT_ELEMENT_DESC where
  SemanticName : String
  SemanticIndex : Nat
  Format : DXGI_FORMAT
  InputSlot : Nat
  AlignedByteOffset : Nat
  InstanceDataStepRate : Nat
  deriving DecidableEq, Repr

/-- The part of `CD3D11_DEPTH_STENCIL_DESC` that differs between the two
states `InitDirect3D` creates (the stencil fields are the same in both). -/
structure D3D11_DEPTH_STENCIL_DESC where
  DepthEnable : Bool
  DepthWriteAll : Bool
  StencilEnable : Bool
  StencilWriteMask : Nat
  deriving DecidableEq, Repr

structure POINT where
  x : Int
  y : Int
  deriving DecidableEq, Repr

structure MINMAXINFO where
  ptReserved : POINT
  ptMaxSize : POINT
  ptMaxPosition : POINT
  ptMinTrackSize : POINT
  ptMaxTrackSize : POINT
  deriving DecidableEq, Repr

structure RECT where
  left : Int
  top : Int
  right : Int
  bottom : Int
  deriving DecidableEq, Repr

structure POINTF where
  x : float
  y : float
  deriving DecidableEq

structure MSG where
  hwnd : Int
  message : Int
  wParam : Int
  lParam : Int
  deriving DecidableEq, Repr

/-! ## Declarations of DirectXCrash.h -/

/-- The record `VertexPositionTexture`: `float Position[4]; float TexCoord[2];`. -/
structure VertexPositionTexture where
  Position : Fin 4 → float
  TexCoord : Fin 2 → float

/-- The size `sizeof(VertexPositionTexture)` with 4-byte floats. -/
def sizeofVertexPositionTexture : Nat := (4 + 2) * 4

/-- A COM interface pointer: `none` is the null pointer, `some n` points to the
object created by the call logged at position `n`. -/
abbrev COM := Option Nat

/-- An `ID3D11Texture2D*` together with the description the texture was created
from. -/
structure ID3D11Texture2D where
  id : Nat
  desc : D3D11_TEXTURE2D_DESC
  deriving DecidableEq

structure Shader where
  mVS : COM
  mPS : COM
  mInput : COM
  mVSBuffer : COM
  mPSBuffer : COM
  deriving DecidableEq, Repr

structure DxException where
  ErrorCode : Int
  FunctionName : String
  Filename : String
  LineNumber : Int
  deriving DecidableEq, Repr

/-- The data members of `D3DApp`. -/
structure D3DApp where
  mhAppInst : Int
  mhMainWnd : Int
  mAppPaused : Bool
  mMinimized : Bool
  mMaximized : Bool
  mResizing : Bool
  m4xMsaaQuality : Nat
  md3dDevice : COM
  context : COM
  mSwapChain : COM
  mDepthStencilBuffer : Option ID3D11Texture2D
  mRenderTargetView : COM
  mDepthStencilView : COM
  mScreenViewport : D3D11_VIEWPORT
  mMainWndCaption : String
  mClientWidth : Int
  mClientHeight : Int
  mEnable4xMsaa : Bool
  mVB : COM
  mShader1 : Shader
  mShader2 : Shader
  mDS1 : COM
  mDS2 : COM
  deriving DecidableEq

/-! ## The outside world -/

/-- A call that leaves the program, with the arguments the program passes.
`OnResize` marks an entry into `D3DApp::OnResize`. -/
inductive Call where
  | OnResize
  | Release (p : Nat)
  | ResizeBuffers (BufferCount Width Height : Nat) (NewFormat : DXGI_FORMAT) (Flags : Nat)
  | GetBuffer (Buffer : Nat)
  | CreateRenderTargetView (pResource : COM)
  | CreateTexture2D (desc : D3D11_TEXTURE2D_DESC)
  | CreateDepthStencilView (pResource : COM)
  | OMSetRenderTargets (NumViews : Nat) (rtv dsv : COM)
  | RSSetViewports (NumViewports : Nat) (vp : D3D11_VIEWPORT)
  | MessageBox (text : String)
  | PostQuitMessage (nExitCode : Int)
  | DefWindowProc (hwnd msg wParam lParam : Int)
  | D3D11CreateDevice
  | CheckMultisampleQualityLevels (Format : DXGI_FORMAT) (SampleCount : Nat)
  | QueryInterface_IDXGIDevice (device : COM)
  | GetParent_IDXGIAdapter (dxgiDevice : COM)
  | GetParent_IDXGIFactory (dxgiAdapter : COM)
  | CreateSwapChain (device : COM) (sd : DXGI_SWAP_CHAIN_DESC)
  | D3DCompileFromFile (filename entrypoint target : String)
  | CreateVertexShader (blob : COM)
  | CreatePixelShader (blob : COM)
  | CreateInputLayout (layout : List D3D11_INPUT_ELEMENT_DESC) (NumElements : Nat) (blob : COM)
  | CreateBuffer (desc : D3D11_BUFFER_DESC)
  | Map (pResource : COM)
  | memcpy (dst : COM) (data : Fin 4 → VertexPositionTexture) (bytes : Nat)
  | Unmap (pResource : COM)
  | CreateDepthStencilState (desc : D3D11_DEPTH_STENCIL_DESC)
  | IASetVertexBuffers (StartSlot NumBuffers : Nat) (vb : COM) (stride offset : Nat)
  | IASetPrimitiveTopologyTriangleStrip
  | OMSetDepthStencilState (ds : COM) (StencilRef : Nat)
  | VSSetShader (vs : COM)
  | PSSetShader (ps : COM)
  | IASetInputLayout (layout : COM)
  | VSSetConstantBuffers (StartSlot NumBuffers : Nat) (buf : COM)
  | PSSetConstantBuffers (StartSlot NumBuffers : Nat) (buf : COM)
  | Draw (VertexCount StartVertexLocation : Nat)
  | Present (SyncInterval Flags : Nat)
  | TranslateMessage (m : MSG)
  | DispatchMessage (m : MSG)

/-- What the outside world answers.  The answer to a call depends on the
position of the call in the log, so two calls with the same arguments may be
answered differently. -/
structure Env where
  /-- HRESULT of the fallible call logged at a position. -/
  hr : Nat → Int
  /-- Feature level reported by `D3D11CreateDevice`. -/
  featureLevel : Nat → Int
  /-- Quality level count reported by `CheckMultisampleQualityLevels`. -/
  msaaQuality : Nat → Nat
  /-- Result of `DefWindowProc`. -/
  DefWindowProc : Int → Int → Int → Int → Int
  /-- Text of `_com_error(hr).ErrorMessage()`. -/
  ErrorMessage : Int → String
  /-- Content of the wide-character buffer that `MultiByteToWideChar` fills for
  a source string and a buffer capacity. -/
  MultiByteToWideChar : String → Nat → String
  /-- Expansion of `__FILE__` in DirectXCrash.cpp. -/
  FILE : String
  /-- Indeterminate content of the local array `data` of `CreateVertexBuffer`
  before it is assigned. -/
  stack : Fin 4 → VertexPositionTexture

/-- The program state: the application object, the log of the calls made so
far, and the `MINMAXINFO` record stored at each address. -/
structure Sys where
  app : D3DApp
  log : List Call
  minmax : Int → MINMAXINFO

/-- How a member function ends: it returns, it throws, or the process is
terminated by a failed `assert` or by a call through a null pointer. -/
inductive Outcome (α : Type) where
  | ok (a : α)
  | threw (e : DxException)
  | aborted (what : String)
  deriving DecidableEq, Repr

/-- A computation on the program state.  The state is returned whatever the
outcome. -/
def Exec (α : Type) : Type := Sys → Outcome α × Sys

namespace Exec

def pure {α : Type} (a : α) : Exec α := fun s => (Outcome.ok a, s)

def bind {α β : Type} (m : Exec α) (f : α → Exec β) : Exec β := fun s =>
  match m s with
  | (Outcome.ok a, t) => f a t
  | (Outcome.threw e, t) => (Outcome.threw e, t)
  | (Outcome.aborted x, t) => (Outcome.aborted x, t)

instance : Monad Exec where
  pure := Exec.pure
  bind := Exec.bind

end Exec

/-- Read the application object. -/
def getApp : Exec D3DApp := fun s => (Outcome.ok s.app, s)

/-- Write members of the application object. -/
def setApp (f : D3DApp → D3DApp) : Exec Unit := fun s => (Outcome.ok (), { s with app := f s.app })

/-- A call that returns nothing. -/
def emit (c : Call) : Exec Unit := fun s => (Outcome.ok (), { s with log := s.log ++ [c] })

/-- A call that returns an HRESULT; the second component is the position of
the call in the log, which names the object the call creates. -/
def call (env : Env) (c : Call) : Exec (Int × Nat) := fun s =>
  (Outcome.ok (env.hr s.log.length, s.log.length), { s with log := s.log ++ [c] })

/-- The out-parameter of a creating call: null on failure. -/
def created (r : Int × Nat) : COM := if FAILED r.1 then none else some r.2

/-- A call expression `obj->F(..., &out)`: the call is made, the pointer it
creates is stored by `out` when `&out` is a member, and the expression has the
HRESULT as value; the created pointer is handed on for a local `out`. -/
def api (env : Env) (c : Call) (out : COM → D3DApp → D3DApp) : Exec (Int × COM) := do
  let r ← call env c
  setApp (out (created r))
  pure (r.1, created r)

/-- The out-parameter of a call is a local variable or is absent: no member
is written. -/
def noMember (_p : COM) (a : D3DApp) : D3DApp := a

/-- The C macro `assert`. -/
def assert (c : Bool) (expr : String) : Exec Unit := fun s =>
  if c then (Outcome.ok (), s) else (Outcome.aborted expr, s)

/-- A member call `p->...` through a pointer that may be null. -/
def deref (p : COM) (what : String) : Exec Unit := fun s =>
  if p.isSome then (Outcome.ok (), s) else (Outcome.aborted what, s)

/-- The statement `throw`. -/
def throw {α : Type} (e : DxException) : Exec α := fun s => (Outcome.threw e, s)

/-! ## DirectXCrash.h -/

/-- The method `DxException::ToString`. -/
def DxException.ToString (env : Env) (ex : DxException) : String :=
  let msg := env.ErrorMessage ex.ErrorCode
  ex.FunctionName ++ " failed in " ++ ex.Filename ++ "; line " ++ toString ex.LineNumber
    ++ "; error: " ++ msg

/-- The function `AnsiToWString`: the content of a 512-character buffer filled
by `MultiByteToWideChar`. -/
def AnsiToWString (env : Env) (str : String) : String := env.MultiByteToWideChar str 512

/-- The macro `ThrowIfFailed(x)`: `x` is evaluated (its value is the HRESULT,
next to what the call hands on), and a `DxException` carrying the text of `x`,
the file and the line of the invocation is thrown when the HRESULT is a
failure code. -/
def ThrowIfFailed {β : Type} (env : Env) (x : Exec (Int × β)) (text : String) (line : Int) :
    Exec β := do
  let r ← x
  let wfn := AnsiToWString env env.FILE
  if FAILED r.1 then
    throw { ErrorCode := r.1, FunctionName := text, Filename := wfn, LineNumber := line }
  else pure r.2

/-- The macro `ReleaseCOM(x)` for a pointer `x` with value `p`; `clear` is the
assignment `x = 0`. -/
def ReleaseCOM (p : COM) (clear : D3DApp → D3DApp) : Exec Unit :=
  match p with
  | some q => do
    emit (Call.Release q)
    setApp clear
  | none => pure ()

/-! ## DirectXCrash.cpp -/

/-- The constructor `D3DApp::D3DApp`.  The members it does not initialise
(`mVB`, the shaders, the depth-stencil states) start as null. -/
def D3DApp.ctor (hInstance : Int) : D3DApp :=
  { mhAppInst := hInstance
    mMainWndCaption := "D3D11 Application"
    mClientWidth := 800
    mClientHeight := 600
    mEnable4xMsaa := false
    mhMainWnd := 0
    mAppPaused := false
    mMinimized := false
    mMaximized := false
    mResizing := false
    m4xMsaaQuality := 0
    md3dDevice := none
    context := none
    mSwapChain := none
    mDepthStencilBuffer := none
    mRenderTargetView := none
    mDepthStencilView := none
    mScreenViewport :=
      { TopLeftX := 0, TopLeftY := 0, Width := 0, Height := 0, MinDepth := 0, MaxDepth := 0 }
    mVB := none
    mShader1 := { mVS := none, mPS := none, mInput := none, mVSBuffer := none, mPSBuffer := none }
    mShader2 := { mVS := none, mPS := none, mInput := none, mVSBuffer := none, mPSBuffer := none }
    mDS1 := none
    mDS2 := none }

/-- The sample description chosen from `mEnable4xMsaa` (in `OnResize` and in
`InitDirect3D`); `m4xMsaaQuality-1` is computed in `UINT`. -/
def sampleDesc (a : D3DApp) : DXGI_SAMPLE_DESC :=
  if a.mEnable4xMsaa then { Count := 4, Quality := (a.m4xMsaaQuality + 4294967295) % 4294967296 }
  else { Count := 1, Quality := 0 }

/-- The `depthStencilDesc` that `OnResize` fills in. -/
def depthStencilDesc (a : D3DApp) : D3D11_TEXTURE2D_DESC :=
  { Width := toUINT a.mClientWidth
    Height := toUINT a.mClientHeight
    MipLevels := 1
    ArraySize := 1
    Format := DXGI_FORMAT.D24_UNORM_S8_UINT
    SampleDesc := sampleDesc a
    Usage := D3D11_USAGE.DEFAULT
    BindFlags := D3D11_BIND.DEPTH_STENCIL
    CPUAccessFlags := 0
    MiscFlags := 0 }

/-- The viewport that `OnResize` stores in `mScreenViewport`. -/
def screenViewport (a : D3DApp) : D3D11_VIEWPORT :=
  { TopLeftX := 0
    TopLeftY := 0
    Width := floatOfInt a.mClientWidth
    Height := floatOfInt a.mClientHeight
    MinDepth := 0
    MaxDepth := 1 }

/-- The body of `D3DApp::OnResize`. -/
def OnResize.body (env : Env) : Exec Unit := do
  assert (← getApp).context.isSome "context"
  assert (← getApp).md3dDevice.isSome "md3dDevice"
  assert (← getApp).mSwapChain.isSome "mSwapChain"
  -- Release the old views and the old depth/stencil buffer.
  ReleaseCOM (← getApp).mRenderTargetView (fun a => { a with mRenderTargetView := none })
  ReleaseCOM (← getApp).mDepthStencilView (fun a => { a with mDepthStencilView := none })
  ReleaseCOM ((← getApp).mDepthStencilBuffer.map (fun t => t.id))
    (fun a => { a with mDepthStencilBuffer := none })
  -- Resize the swap chain and recreate the render target view.
  let a ← getApp
  let _ ← ThrowIfFailed env
    (api env (Call.ResizeBuffers 1 (toUINT a.mClientWidth) (toUINT a.mClientHeight)
      DXGI_FORMAT.R8G8B8A8_UNORM 0) noMember)
    "mSwapChain->ResizeBuffers(1, mClientWidth, mClientHeight, DXGI_FORMAT_R8G8B8A8_UNORM, 0)" 151
  let backBuffer ← ThrowIfFailed env (api env (Call.GetBuffer 0) noMember)
    "mSwapChain->GetBuffer(0, __uuidof(ID3D11Texture2D), reinterpret_cast<void**>(&backBuffer))" 153
  let _ ← ThrowIfFailed env
    (api env (Call.CreateRenderTargetView backBuffer)
      (fun p a => { a with mRenderTargetView := p }))
    "md3dDevice->CreateRenderTargetView(backBuffer, 0, &mRenderTargetView)" 154
  ReleaseCOM backBuffer (fun a => a)
  -- Create the depth/stencil buffer and view.
  let desc := depthStencilDesc (← getApp)
  let _ ← ThrowIfFailed env
    (api env (Call.CreateTexture2D desc)
      (fun p a => { a with mDepthStencilBuffer := p.map (fun i => { id := i, desc := desc }) }))
    "md3dDevice->CreateTexture2D(&depthStencilDesc, 0, &mDepthStencilBuffer)" 185
  let _ ← ThrowIfFailed env
    (api env (Call.CreateDepthStencilView ((← getApp).mDepthStencilBuffer.map (fun t => t.id)))
      (fun p a => { a with mDepthStencilView := p }))
    "md3dDevice->CreateDepthStencilView(mDepthStencilBuffer, 0, &mDepthStencilView)" 186
  -- Bind the render target view and depth/stencil view to the pipeline.
  let a ← getApp
  emit (Call.OMSetRenderTargets 1 a.mRenderTargetView a.mDepthStencilView)
  -- Set the viewport transform.
  setApp (fun a => { a with mScreenViewport := screenViewport a })
  emit (Call.RSSetViewports 1 (← getApp).mScreenViewport)

/-- The method `D3DApp::OnResize`; the entry is marked in the log. -/
def OnResize (env : Env) : Exec Unit := do
  emit Call.OnResize
  OnResize.body env

/-- The mouse hooks `OnMouseDown`, `OnMouseUp`, `OnMouseMove`: empty bodies. -/
def OnMouse (_btnState _x _y : Int) : Exec Unit := pure ()

/-- The macro `GET_X_LPARAM`: the low word, read as a signed 16-bit number. -/
def GET_X_LPARAM (lp : Int) : Int := (LOWORD lp + 32768) % 65536 - 32768

/-- The macro `GET_Y_LPARAM`: the high word, read as a signed 16-bit number. -/
def GET_Y_LPARAM (lp : Int) : Int := (HIWORD lp + 32768) % 65536 - 32768

/-- A write through `(MINMAXINFO*)lParam`. -/
def setMinMaxInfo (p : Int) (f : MINMAXINFO → MINMAXINFO) : Exec Unit := fun s =>
  (Outcome.ok (), { s with minmax := Function.update s.minmax p (f (s.minmax p)) })

/-- The `WM_SIZE` case of `MsgProc`. -/
def MsgProc.size (env : Env) (wParam lParam : Int) : Exec Int := do
  -- Save the new client area dimensions.
  setApp (fun a => { a with mClientWidth := LOWORD lParam })
  setApp (fun a => { a with mClientHeight := HIWORD lParam })
  if (← getApp).md3dDevice.isSome then
    if wParam = SIZE_MINIMIZED then
      setApp (fun a => { a with mAppPaused := true, mMinimized := true, mMaximized := false })
    else if wParam = SIZE_MAXIMIZED then do
      setApp (fun a => { a with mAppPaused := false, mMinimized := false, mMaximized := true })
      OnResize env
    else if wParam = SIZE_RESTORED then
      -- Restoring from minimized state?
      if (← getApp).mMinimized then do
        setApp (fun a => { a with mAppPaused := false, mMinimized := false })
        OnResize env
      -- Restoring from maximized state?
      else if (← getApp).mMaximized then do
        setApp (fun a => { a with mAppPaused := false, mMaximized := false })
        OnResize env
      else if (← getApp).mResizing then
        -- The user is dragging the resize bars: nothing is resized here.
        pure ()
      else
        -- API call such as SetWindowPos or mSwapChain->SetFullscreenState.
        OnResize env
    else pure ()
  else pure ()
  pure 0

/-- The method `D3DApp::MsgProc`. -/
def MsgProc (env : Env) (hwnd msg wParam lParam : Int) : Exec Int :=
  if msg = WM_ACTIVATE then do
    if LOWORD wParam = WA_INACTIVE then
      setApp (fun a => { a with mAppPaused := true })
    else
      setApp (fun a => { a with mAppPaused := false })
    pure 0
  else if msg = WM_SIZE then
    MsgProc.size env wParam lParam
  else if msg = WM_ENTERSIZEMOVE then do
    setApp (fun a => { a with mAppPaused := true, mResizing := true })
    pure 0
  else if msg = WM_EXITSIZEMOVE then do
    setApp (fun a => { a with mAppPaused := false, mResizing := false })
    OnResize env
    pure 0
  else if msg = WM_DESTROY then do
    emit (Call.PostQuitMessage 0)
    pure 0
  else if msg = WM_MENUCHAR then
    -- Don't beep when we alt-enter.
    pure (MAKELRESULT 0 MNC_CLOSE)
  else if msg = WM_GETMINMAXINFO then do
    setMinMaxInfo lParam (fun m => { m with ptMinTrackSize := { m.ptMinTrackSize with x := 200 } })
    setMinMaxInfo lParam (fun m => { m with ptMinTrackSize := { m.ptMinTrackSize with y := 200 } })
    pure 0
  else if msg = WM_LBUTTONDOWN ∨ msg = WM_MBUTTONDOWN ∨ msg = WM_RBUTTONDOWN then do
    OnMouse wParam (GET_X_LPARAM lParam) (GET_Y_LPARAM lParam)
    pure 0
  else if msg = WM_LBUTTONUP ∨ msg = WM_MBUTTONUP ∨ msg = WM_RBUTTONUP then do
    OnMouse wParam (GET_X_LPARAM lParam) (GET_Y_LPARAM lParam)
    pure 0
  else if msg = WM_MOUSEMOVE then do
    OnMouse wParam (GET_X_LPARAM lParam) (GET_Y_LPARAM lParam)
    pure 0
  else do
    emit (Call.DefWindowProc hwnd msg wParam lParam)
    pure (env.DefWindowProc hwnd msg wParam lParam)

/-- The method `D3DApp::CreateConstantBuffer`. -/
def CreateConstantBuffer (env : Env) (bufferSize : Int) : Exec COM := do
  let desc : D3D11_BUFFER_DESC :=
    { ByteWidth := toUINT bufferSize
      Usage := D3D11_USAGE.DEFAULT
      BindFlags := D3D11_BIND.CONSTANT_BUFFER
      CPUAccessWrite := false }
  deref (← getApp).md3dDevice "md3dDevice"
  let result ← ThrowIfFailed env (api env (Call.CreateBuffer desc) noMember)
    "md3dDevice->CreateBuffer(&desc, nullptr, &result)" 380
  pure result

/-- The array `quadLayout` of `CreateShader`. -/
def quadLayout : List D3D11_INPUT_ELEMENT_DESC :=
  [ { SemanticName := "POSITION", SemanticIndex := 0, Format := DXGI_FORMAT.R32G32B32_FLOAT
      InputSlot := 0, AlignedByteOffset := 0, InstanceDataStepRate := 0 },
    { SemanticName := "TEXCOORD", SemanticIndex := 0, Format := DXGI_FORMAT.R32G32_FLOAT
      InputSlot := 0, AlignedByteOffset := 12, InstanceDataStepRate := 0 } ]

/-- The method `D3DApp::CreateShader`. -/
def CreateShader (env : Env) (filename : String) (bufferSize : Int) : Exec Shader := do
  -- Compile Vertex and Pixel shaders
  let shaderBlob ← ThrowIfFailed env
    (api env (Call.D3DCompileFromFile filename "VS" "vs_4_0") noMember)
    "D3DCompileFromFile(filename.c_str(), NULL, NULL, \"VS\", \"vs_4_0\", flags, 0, &shaderBlob, &errorBlob)"
    394
  deref (← getApp).md3dDevice "md3dDevice"
  let mVS ← ThrowIfFailed env (api env (Call.CreateVertexShader shaderBlob) noMember)
    "md3dDevice->CreateVertexShader(shaderBlob->GetBufferPointer(), shaderBlob->GetBufferSize(), NULL, &result.mVS)"
    395
  let vertexBlob := shaderBlob
  let shaderBlob ← ThrowIfFailed env
    (api env (Call.D3DCompileFromFile filename "PS" "ps_4_0") noMember)
    "D3DCompileFromFile(filename.c_str(), NULL, NULL, \"PS\", \"ps_4_0\", flags, 0, &shaderBlob, &errorBlob)"
    399
  let mPS ← ThrowIfFailed env (api env (Call.CreatePixelShader shaderBlob) noMember)
    "md3dDevice->CreatePixelShader(shaderBlob->GetBufferPointer(), shaderBlob->GetBufferSize(), NULL, &result.mPS)"
    400
  let mInput ← ThrowIfFailed env (api env (Call.CreateInputLayout quadLayout 2 vertexBlob) noMember)
    "md3dDevice->CreateInputLayout(quadLayout, 2, vertexBlob->GetBufferPointer(), vertexBlob->GetBufferSize(), &result.mInput)"
    409
  let mVSBuffer ← CreateConstantBuffer env bufferSize
  let mPSBuffer ← CreateConstantBuffer env bufferSize
  pure { mVS := mVS, mPS := mPS, mInput := mInput, mVSBuffer := mVSBuffer, mPSBuffer := mPSBuffer }

/-- One assignment `data[i].Position[j] = v`. -/
def setPosition (data : Fin 4 → VertexPositionTexture) (i : Fin 4) (j : Fin 4) (v : float) :
    Fin 4 → VertexPositionTexture :=
  Function.update data i { data i with Position := Function.update (data i).Position j v }

/-- One assignment `data[i].TexCoord[j] = v`. -/
def setTexCoord (data : Fin 4 → VertexPositionTexture) (i : Fin 4) (j : Fin 2) (v : float) :
    Fin 4 → VertexPositionTexture :=
  Function.update data i { data i with TexCoord := Function.update (data i).TexCoord j v }

/-- The local array `data` of `CreateVertexBuffer` after its twenty
assignments, starting from the indeterminate content `data`. -/
def quadData (rectangle : RECT) (texCoordTopLeft texCoordBottomRight : POINTF)
    (data : Fin 4 → VertexPositionTexture) : Fin 4 → VertexPositionTexture :=
  let left := rectangle.left
  let top := rectangle.top
  let bottom := rectangle.bottom
  let right := rectangle.right
  let data := setPosition data 0 0 (floatOfInt left)
  let data := setPosition data 0 1 (floatOfInt top)
  let data := setPosition data 0 2 0
  let data := setTexCoord data 0 0 texCoordTopLeft.x
  let data := setTexCoord data 0 1 texCoordTopLeft.y
  let data := setPosition data 1 0 (floatOfInt right)
  let data := setPosition data 1 1 (floatOfInt top)
  let data := setPosition data 1 2 0
  let data := setTexCoord data 1 0 texCoordBottomRight.x
  let data := setTexCoord data 1 1 texCoordTopLeft.y
  let data := setPosition data 2 0 (floatOfInt left)
  let data := setPosition data 2 1 (floatOfInt bottom)
  let data := setPosition data 2 2 0
  let data := setTexCoord data 2 0 texCoordTopLeft.x
  let data := setTexCoord data 2 1 texCoordBottomRight.y
  let data := setPosition data 3 0 (floatOfInt right)
  let data := setPosition data 3 1 (floatOfInt bottom)
  let data := setPosition data 3 2 0
  let data := setTexCoord data 3 0 texCoordBottomRight.x
  let data := setTexCoord data 3 1 texCoordBottomRight.y
  data

/-- The method `D3DApp::CreateVertexBuffer`. -/
def CreateVertexBuffer (env : Env) (rectangle : RECT)
    (texCoordTopLeft texCoordBottomRight : POINTF) : Exec COM := do
  let desc : D3D11_BUFFER_DESC :=
    { ByteWidth := 4 * sizeofVertexPositionTexture
      Usage := D3D11_USAGE.DYNAMIC
      BindFlags := D3D11_BIND.VERTEX_BUFFER
      CPUAccessWrite := true }
  deref (← getApp).md3dDevice "md3dDevice"
  let result ← ThrowIfFailed env (api env (Call.CreateBuffer desc) noMember)
    "md3dDevice->CreateBuffer(&desc, nullptr, &result)" 430
  let data := quadData rectangle texCoordTopLeft texCoordBottomRight env.stack
  deref (← getApp).context "context"
  let _ ← ThrowIfFailed env (api env (Call.Map result) noMember)
    "context->Map(result, 0, D3D11_MAP_WRITE_DISCARD, 0, &dataBox)" 463
  emit (Call.memcpy result data (4 * sizeofVertexPositionTexture))
  emit (Call.Unmap result)
  pure result

/-- The `DXGI_SWAP_CHAIN_DESC` that `InitDirect3D` fills in. -/
def swapChainDesc (a : D3DApp) : DXGI_SWAP_CHAIN_DESC :=
  { Width := toUINT a.mClientWidth
    Height := toUINT a.mClientHeight
    RefreshRateNumerator := 60
    RefreshRateDenominator := 1
    Format := DXGI_FORMAT.R8G8B8A8_UNORM
    SampleDesc := sampleDesc a
    BufferCount := 1
    OutputWindow := a.mhMainWnd
    Windowed := true
    Flags := 0 }

/-- The call expression `md3dDevice->CheckMultisampleQualityLevels(...)`, which
writes `m4xMsaaQuality`. -/
def CheckMultisampleQualityLevels (env : Env) : Exec (Int × Unit) := do
  let r ← call env (Call.CheckMultisampleQualityLevels DXGI_FORMAT.R8G8B8A8_UNORM 4)
  setApp (fun a => { a with m4xMsaaQuality := env.msaaQuality r.2 })
  pure (r.1, ())

/-- The part of `InitDirect3D` that follows the feature-level test. -/
def InitDirect3D.rest (env : Env) : Exec Bool := do
  -- Check 4X MSAA quality support for our back buffer format.
  ThrowIfFailed env (CheckMultisampleQualityLevels env)
    "md3dDevice->CheckMultisampleQualityLevels( DXGI_FORMAT_R8G8B8A8_UNORM, 4, &m4xMsaaQuality)" 503
  assert (decide (0 < (← getApp).m4xMsaaQuality)) "m4xMsaaQuality > 0"
  -- Fill out a DXGI_SWAP_CHAIN_DESC to describe our swap chain.
  let sd := swapChainDesc (← getApp)
  -- The swap chain is created by the IDXGIFactory that created the device.
  let dxgiDevice ← ThrowIfFailed env
    (api env (Call.QueryInterface_IDXGIDevice (← getApp).md3dDevice) noMember)
    "md3dDevice->QueryInterface(__uuidof(IDXGIDevice), (void**)&dxgiDevice)" 544
  let dxgiAdapter ← ThrowIfFailed env (api env (Call.GetParent_IDXGIAdapter dxgiDevice) noMember)
    "dxgiDevice->GetParent(__uuidof(IDXGIAdapter), (void**)&dxgiAdapter)" 547
  let dxgiFactory ← ThrowIfFailed env (api env (Call.GetParent_IDXGIFactory dxgiAdapter) noMember)
    "dxgiAdapter->GetParent(__uuidof(IDXGIFactory), (void**)&dxgiFactory)" 550
  let _ ← ThrowIfFailed env
    (api env (Call.CreateSwapChain (← getApp).md3dDevice sd) (fun p a => { a with mSwapChain := p }))
    "dxgiFactory->CreateSwapChain(md3dDevice, &sd, &mSwapChain)" 552
  ReleaseCOM dxgiDevice (fun a => a)
  ReleaseCOM dxgiAdapter (fun a => a)
  ReleaseCOM dxgiFactory (fun a => a)
  -- The remaining steps are those of every resize.
  OnResize env
  let sh ← CreateShader env "RebuildZBuffer.fx" 112
  setApp (fun a => { a with mShader1 := sh })
  let sh ← CreateShader env "CameraMotionBlur.fx" 224
  setApp (fun a => { a with mShader2 := sh })
  let r : RECT := { left := 0, top := 0, right := 1600, bottom := 900 }
  let topLeft : POINTF := { x := 0, y := 0 }
  let bottomRight : POINTF := { x := 1, y := 1 }
  let vb ← CreateVertexBuffer env r topLeft bottomRight
  setApp (fun a => { a with mVB := vb })
  let desc : D3D11_DEPTH_STENCIL_DESC :=
    { DepthEnable := true, DepthWriteAll := true, StencilEnable := false, StencilWriteMask := 255 }
  -- The HRESULTs of the two CreateDepthStencilState calls are not looked at.
  let _ ← api env (Call.CreateDepthStencilState desc) (fun p a => { a with mDS1 := p })
  let desc := { desc with DepthEnable := false, DepthWriteAll := false }
  let _ ← api env (Call.CreateDepthStencilState desc) (fun p a => { a with mDS2 := p })
  pure true

/-- The method `D3DApp::InitDirect3D`. -/
def InitDirect3D (env : Env) : Exec Bool := do
  -- Create the device and device context.
  let r ← call env Call.D3D11CreateDevice
  let featureLevel := env.featureLevel r.2
  setApp (fun a => { a with md3dDevice := created r, context := created r })
  if FAILED r.1 then do
    emit (Call.MessageBox "D3D11CreateDevice Failed.")
    pure false
  else if featureLevel ≠ D3D_FEATURE_LEVEL_11_0 then do
    emit (Call.MessageBox "Direct3D Feature Level 11 unsupported.")
    pure false
  else
    InitDirect3D.rest env

/-- The rendering branch of the loop of `Run`, up to and including `Present`. -/
def renderFrame (env : Env) : Exec Unit := do
  let a ← getApp
  -- Vertex Buffer
  let stride := sizeofVertexPositionTexture
  let offset := 0
  deref a.context "context"
  emit (Call.IASetVertexBuffers 0 1 a.mVB stride offset)
  emit Call.IASetPrimitiveTopologyTriangleStrip
  -- Shader/DepthState 1
  emit (Call.OMSetDepthStencilState a.mDS1 0)
  emit (Call.VSSetShader a.mShader1.mVS)
  emit (Call.PSSetShader a.mShader1.mPS)
  emit (Call.IASetInputLayout a.mShader1.mInput)
  emit (Call.VSSetConstantBuffers 0 1 a.mShader1.mVSBuffer)
  emit (Call.PSSetConstantBuffers 0 1 a.mShader1.mPSBuffer)
  emit (Call.Draw 4 0)
  -- Shader/DepthState 2
  emit (Call.OMSetDepthStencilState a.mDS2 0)
  emit (Call.VSSetShader a.mShader2.mVS)
  emit (Call.PSSetShader a.mShader2.mPS)
  emit (Call.IASetInputLayout a.mShader2.mInput)
  emit (Call.VSSetConstantBuffers 0 1 a.mShader2.mVSBuffer)
  emit (Call.PSSetConstantBuffers 0 1 a.mShader2.mPSBuffer)
  emit (Call.Draw 4 0)
  deref a.mSwapChain "mSwapChain"
  let _ ← ThrowIfFailed env (api env (Call.Present 0 0) noMember) "mSwapChain->Present(0, 0)" 117

/-- The loop of `D3DApp::Run`, given the current content of `msg` and the
outcomes of the coming `PeekMessage` calls (`some m`: the message `m` was
removed from the queue and stored in `msg`; `none`: no message was pending).
`TranslateMessage` and `DispatchMessage` are calls into the operating system,
logged like any other.  The result is the return value, or `none` when the
listed outcomes are used up while the loop is still running, together with
the outcomes not consumed. -/
def Run.loop (env : Env) : List (Option MSG) → MSG → Exec (Option Int × List (Option MSG))
  | [], msg =>
    if msg.message ≠ WM_QUIT then pure (none, [])
    else pure (some (toInt32 msg.wParam), [])
  | some m :: rest, msg =>
    if msg.message ≠ WM_QUIT then do
      -- If there are Window messages then process them.
      emit (Call.TranslateMessage m)
      emit (Call.DispatchMessage m)
      Run.loop env rest m
    else pure (some (toInt32 msg.wParam), some m :: rest)
  | none :: rest, msg =>
    if msg.message ≠ WM_QUIT then do
      -- Otherwise, do animation/game stuff.
      renderFrame env
      Run.loop env rest msg
    else pure (some (toInt32 msg.wParam), none :: rest)

/-- The method `D3DApp::Run`: `MSG msg = {0}` followed by the loop. -/
def Run (env : Env) (peeks : List (Option MSG)) : Exec (Option Int × List (Option MSG)) :=
  Run.loop env peeks { hwnd := 0, message := 0, wParam := 0, lParam := 0 }

/-! ## Notions used to state and prove the properties -/

/-- The number of entries into `OnResize` recorded in a log. -/
def onResizeCalls (l : List Call) : Nat :=
  l.countP (fun c => match c with
    | Call.OnResize => true
    | _ => false)

/-- A computation returns normally from `s`, with a result and a final state
that satisfy `Q`. -/
def wp {α : Type} (m : Exec α) (Q : α → Sys → Prop) (s : Sys) : Prop :=
  match m s with
  | (Outcome.ok a, t) => Q a t
  | _ => False

/-- Whatever its outcome, a computation started in `s` ends in a state related
to `s` by `R`. -/
structure Respects {α : Type} (R : Sys → Sys → Prop) (m : Exec α) : Prop where
  run : ∀ s, R s (m s).2

/-- The final state agrees with the initial one on the part `p` of the
application object, the log has only grown, and every call added to it
satisfies `P`. -/
def Frame {β : Type} (p : D3DApp → β) (P : Call → Prop) (s t : Sys) : Prop :=
  p t.app = p s.app ∧ ∃ l, t.log = s.log ++ l ∧ ∀ c ∈ l, P c

/-- The application object with the four members that `OnResize` writes
blanked out. -/
def D3DApp.outsideResize (a : D3DApp) : D3DApp :=
  { a with
    mRenderTargetView := none
    mDepthStencilView := none
    mDepthStencilBuffer := none
    mScreenViewport :=
      { TopLeftX := 0, TopLeftY := 0, Width := 0, Height := 0, MinDepth := 0, MaxDepth := 0 } }

/-- A call other than the marker of an entry into `OnResize`. -/
def Call.notOnResize (c : Call) : Prop := onResizeCalls [c] = 0

/-! ## Concrete inputs -/

/-- An environment in which every call succeeds, the device reports feature
level 11.0 and one multisample quality level. -/
def okEnv : Env :=
  { hr := fun _ => 0
    featureLevel := fun _ => D3D_FEATURE_LEVEL_11_0
    msaaQuality := fun _ => 1
    DefWindowProc := fun _ _ _ _ => 0
    ErrorMessage := fun _ => "The GPU device instance has been suspended."
    MultiByteToWideChar := fun str _ => str
    FILE := "DirectXCrash.cpp"
    stack := fun _ => { Position := fun _ => 0, TexCoord := fun _ => 0 } }

/-- An environment like `okEnv` in which the first 38 calls (those of a whole
`InitDirect3D`) succeed and every later fallible call returns
`DXGI_ERROR_DEVICE_REMOVED`. -/
def removedEnv : Env :=
  { okEnv with hr := fun n => if n < 38 then 0 else -2005270523 }

/-- An environment like `okEnv` in which `D3D11CreateDevice` fails with
`E_FAIL`. -/
def noDeviceEnv : Env :=
  { okEnv with hr := fun _ => -2147467259 }

/-- The program state right after `D3DApp theApp(hInstance)`. -/
def startSys : Sys :=
  { app := D3DApp.ctor 1
    log := []
    minmax := fun _ =>
      { ptReserved := ⟨0, 0⟩, ptMaxSize := ⟨0, 0⟩, ptMaxPosition := ⟨0, 0⟩
        ptMinTrackSize := ⟨0, 0⟩, ptMaxTrackSize := ⟨0, 0⟩ } }

/-- The state after a successful `InitDirect3D` on the fresh application. -/
def initialised : Sys := (InitDirect3D okEnv startSys).2

/-- The state `initialised` after `WM_ENTERSIZEMOVE`: the user has grabbed the
resize bars. -/
def dragging : Sys := (MsgProc okEnv 0 WM_ENTERSIZEMOVE 0 0 initialised).2

/-- The state `dragging` after a `WM_SIZE` with `SIZE_MAXIMIZED`. -/
def draggingMaximized : Sys := (MsgProc okEnv 0 WM_SIZE SIZE_MAXIMIZED (1024 + 65536 * 768) dragging).2

/-- The graphics calls whose HRESULT the program tests with `ThrowIfFailed`. -/
def Call.checked : Call → Bool
  | Call.ResizeBuffers _ _ _ _ _ => true
  | Call.GetBuffer _ => true
  | Call.CreateRenderTargetView _ => true
  | Call.CreateTexture2D _ => true
  | Call.CreateDepthStencilView _ => true
  | Call.CheckMultisampleQualityLevels _ _ => true
  | Call.QueryInterface_IDXGIDevice _ => true
  | Call.GetParent_IDXGIAdapter _ => true
  | Call.GetParent_IDXGIFactory _ => true
  | Call.CreateSwapChain _ _ => true
  | Call.D3DCompileFromFile _ _ _ => true
  | Call.CreateVertexShader _ => true
  | Call.CreatePixelShader _ => true
  | Call.CreateInputLayout _ _ _ => true
  | Call.CreateBuffer _ => true
  | Call.Map _ => true
  | Call.Present _ _ => true
  | _ => false

/-- A run from `s` to the result `r` throws for every failed checked call:
the log has grown by `l`, and whenever a call of `l` is a checked call that
returned a failure code, the outcome is the `DxException` with that code. -/
def ThrowsOnFailure {α : Type} (env : Env) (s : Sys) (r : Outcome α × Sys) : Prop :=
  ∃ l, r.2.log = s.log ++ l ∧
    ∀ i c, l[i]? = some c → c.checked = true → env.hr (s.log.length + i) < 0 →
      ∃ e, r.1 = Outcome.threw e ∧ e.ErrorCode = env.hr (s.log.length + i) ∧
        e.Filename = AnsiToWString env env.FILE

/-- Every run of the computation throws for every failed checked call. -/
structure Sound {α : Type} (env : Env) (m : Exec α) : Prop where
  run : ∀ s, ThrowsOnFailure env s (m s)

/-- An environment like `okEnv` in which only the call logged at position 10
fails (in `InitDirect3D` on a fresh application: `ResizeBuffers`), with
`DXGI_ERROR_INVALID_CALL`. -/
def resizeFailsEnv : Env :=
  { okEnv with hr := fun n => if n = 10 then -2005270527 else 0 }

/-! ## The layout of a vertex in memory -/

/-- The size `sizeof(float)`. -/
def sizeofFloat : Nat := 4

/-- The offset `offsetof(VertexPositionTexture, Position)`: the first member. -/
def offsetofPosition : Nat := 0

/-- The offset `offsetof(VertexPositionTexture, TexCoord)`: the member that
follows `float Position[4]`. -/
def offsetofTexCoord : Nat := offsetofPosition + 4 * sizeofFloat

/-- The floats of one `VertexPositionTexture` in address order, as `memcpy`
copies them into the vertex buffer: `Position[0..3]`, then `TexCoord[0..1]`. -/
def VertexPositionTexture.floats (v : VertexPositionTexture) : List float :=
  [v.Position 0, v.Position 1, v.Position 2, v.Position 3, v.TexCoord 0, v.TexCoord 1]

/-- The size in bytes of one element of a format (DXGI documentation). -/
def DXGI_FORMAT.byteSize : DXGI_FORMAT → Nat
  | DXGI_FORMAT.R32G32B32_FLOAT => 12
  | DXGI_FORMAT.R32G32_FLOAT => 8
  | DXGI_FORMAT.R8G8B8A8_UNORM => 4
  | DXGI_FORMAT.D24_UNORM_S8_UINT => 4

/-- What the input assembler hands to the vertex shader for one element of the
input layout (Direct3D documentation): the floats of the vertex that start at
the element's `AlignedByteOffset` and fill the size of its format. -/
def fetchElement (e : D3D11_INPUT_ELEMENT_DESC) (v : VertexPositionTexture) : List float :=
  (v.floats.drop (e.AlignedByteOffset / sizeofFloat)).take (e.Format.byteSize / sizeofFloat)

/-! ## The execution monad -/

@[simp] theorem Exec.bind_run {α β : Type} (m : Exec α) (f : α → Exec β) (s : Sys) :
    (m >>= f) s = Exec.bind m f s := rfl

@[simp] theorem Exec.pure_run {α : Type} (a : α) (s : Sys) :
    (Pure.pure a : Exec α) s = (Outcome.ok a, s) := rfl

theorem wp_iff {α : Type} (m : Exec α) (Q : α → Sys → Prop) (s : Sys) :
    wp m Q s ↔ ∃ a t, m s = (Outcome.ok a, t) ∧ Q a t := by
  unfold wp
  rcases h : m s with ⟨o, t⟩
  cases o with
  | ok a =>
    constructor
    · intro hq
      exact ⟨a, t, rfl, hq⟩
    · rintro ⟨b, u, hbu, hq⟩
      cases hbu
      exact hq
  | threw e => simp
  | aborted w => simp

theorem wp_mono {α : Type} (m : Exec α) (Q R : α → Sys → Prop) (s : Sys) (h : wp m Q s)
    (hQR : ∀ a t, Q a t → R a t) : wp m R s := by
  rw [wp_iff] at h ⊢
  obtain ⟨a, t, h1, h2⟩ := h
  exact ⟨a, t, h1, hQR a t h2⟩

theorem Frame.refl {β : Type} (p : D3DApp → β) (P : Call → Prop) (s : Sys) : Frame p P s s :=
  ⟨rfl, [], by simp, by simp⟩

theorem Frame.trans {β : Type} {p : D3DApp → β} {P : Call → Prop} {s t u : Sys}
    (h1 : Frame p P s t) (h2 : Frame p P t u) : Frame p P s u := by
  obtain ⟨ha, l, hl, hP⟩ := h1
  obtain ⟨hb, k, hk, hQ⟩ := h2
  refine ⟨hb.trans ha, l ++ k, by rw [hk, hl, List.append_assoc], ?_⟩
  intro c hc
  rcases List.mem_append.mp hc with h | h
  · exact hP c h
  · exact hQ c h

theorem respects_pure {α β : Type} (p : D3DApp → β) (P : Call → Prop) (a : α) :
    Respects (Frame p P) (Pure.pure a : Exec α) :=
  ⟨fun s => Frame.refl p P s⟩

theorem respects_bind {α γ β : Type} {p : D3DApp → β} {P : Call → Prop} {m : Exec α}
    {f : α → Exec γ} (hm : Respects (Frame p P) m) (hf : ∀ a, Respects (Frame p P) (f a)) :
    Respects (Frame p P) (m >>= f) := by
  constructor
  intro s
  have h1 := hm.run s
  simp only [Exec.bind_run, Exec.bind]
  rcases h : m s with ⟨o, t⟩
  rw [h] at h1
  cases o with
  | ok a => exact Frame.trans h1 ((hf a).run t)
  | threw e => exact h1
  | aborted w => exact h1

theorem respects_getApp {β : Type} (p : D3DApp → β) (P : Call → Prop) :
    Respects (Frame p P) getApp :=
  ⟨fun s => Frame.refl p P s⟩

theorem respects_assert {β : Type} (p : D3DApp → β) (P : Call → Prop) (c : Bool) (e : String) :
    Respects (Frame p P) (assert c e) := by
  constructor
  intro s
  cases c <;> exact Frame.refl p P s

theorem respects_throw {α β : Type} (p : D3DApp → β) (P : Call → Prop) (e : DxException) :
    Respects (Frame p P) (throw e : Exec α) :=
  ⟨fun s => Frame.refl p P s⟩

theorem respects_setApp {β : Type} {p : D3DApp → β} (P : Call → Prop) {f : D3DApp → D3DApp}
    (h : ∀ a, p (f a) = p a) : Respects (Frame p P) (setApp f) :=
  ⟨fun s => ⟨h s.app, [], by simp [DirectXCrash.setApp], by simp⟩⟩

theorem respects_emit {β : Type} (p : D3DApp → β) {P : Call → Prop} {c : Call} (h : P c) :
    Respects (Frame p P) (emit c) :=
  ⟨fun s => ⟨rfl, [c], rfl, by simpa using h⟩⟩

theorem respects_call {β : Type} (p : D3DApp → β) {P : Call → Prop} (env : Env) {c : Call}
    (h : P c) : Respects (Frame p P) (call env c) :=
  ⟨fun s => ⟨rfl, [c], rfl, by simpa using h⟩⟩

theorem respects_api {β : Type} {p : D3DApp → β} {P : Call → Prop} (env : Env) {c : Call}
    {out : COM → D3DApp → D3DApp} (h : P c) (hout : ∀ q a, p (out q a) = p a) :
    Respects (Frame p P) (api env c out) := by
  unfold DirectXCrash.api
  exact respects_bind (respects_call p env h) (fun r =>
    respects_bind (respects_setApp P (hout _)) (fun _ => respects_pure p P _))

theorem respects_ThrowIfFailed {α β : Type} {p : D3DApp → β} {P : Call → Prop} (env : Env)
    {x : Exec (Int × α)} (text : String) (line : Int) (hx : Respects (Frame p P) x) :
    Respects (Frame p P) (ThrowIfFailed env x text line) := by
  unfold DirectXCrash.ThrowIfFailed
  refine respects_bind hx (fun r => ?_)
  by_cases h : FAILED r.1 = true
  · simp only [h, if_true]
    exact respects_throw p P _
  · simp only [h]
    exact respects_pure p P _

theorem respects_ReleaseCOM {β : Type} {p : D3DApp → β} {P : Call → Prop} (q : COM)
    {clear : D3DApp → D3DApp} (hP : ∀ n, P (Call.Release n)) (hclear : ∀ a, p (clear a) = p a) :
    Respects (Frame p P) (ReleaseCOM q clear) := by
  cases q with
  | none => exact respects_pure p P _
  | some n => exact respects_bind (respects_emit p (hP n)) (fun _ => respects_setApp P hclear)

theorem OnResize.body_frame (env : Env) :
    Respects (Frame D3DApp.outsideResize Call.notOnResize) (OnResize.body env) := by
  unfold OnResize.body
  repeat' (first
    | apply respects_getApp
    | apply respects_assert
    | apply respects_ThrowIfFailed
    | apply respects_api
    | apply respects_ReleaseCOM
    | apply respects_emit
    | apply respects_setApp
    | apply respects_pure
    | apply respects_bind
    | intro _)
  all_goals rfl

theorem onResizeCalls_append (l k : List Call) :
    onResizeCalls (l ++ k) = onResizeCalls l + onResizeCalls k := by
  simp [onResizeCalls]

theorem onResizeCalls_eq_zero (l : List Call) (h : ∀ c ∈ l, Call.notOnResize c) :
    onResizeCalls l = 0 := by
  induction l with
  | nil => rfl
  | cons c l ih =>
    have h1 : onResizeCalls [c] = 0 := h c (by simp)
    have h2 := ih (fun d hd => h d (by simp [hd]))
    have h3 := onResizeCalls_append [c] l
    simp only [List.singleton_append] at h3
    omega

/-- Every entry into `OnResize` leaves exactly one mark in the log, whatever
the outcome, and writes nothing but the four resize members. -/
theorem OnResize_frame (env : Env) (s : Sys) :
    (OnResize env s).2.app.outsideResize = s.app.outsideResize ∧
      onResizeCalls (OnResize env s).2.log = onResizeCalls s.log + 1 := by
  have h := (OnResize.body_frame env).run { s with log := s.log ++ [Call.OnResize] }
  have e : OnResize env s = OnResize.body env { s with log := s.log ++ [Call.OnResize] } := by
    simp [OnResize, Exec.bind, emit]
  obtain ⟨ha, l, hl, hP⟩ := h
  rw [e]
  refine ⟨ha, ?_⟩
  rw [hl, onResizeCalls_append, onResizeCalls_eq_zero l hP, onResizeCalls_append]
  rfl

/-! ## Window messages -/

theorem Exec.setApp_then_state {α β : Type} (f : D3DApp → D3DApp) (m : Exec α) (b : β) (s : Sys) :
    ((setApp f >>= fun _ => m >>= fun _ => (Pure.pure b : Exec β)) s).2
      = (m { s with app := f s.app }).2 := by
  simp only [Exec.bind_run, Exec.bind, setApp]
  rcases m { s with app := f s.app } with ⟨o, t⟩
  cases o <;> rfl

theorem Exec.setApp_then_outcome {α β : Type} (f : D3DApp → D3DApp) (m : Exec α) (b : β) (s : Sys)
    (a : α) (h : (m { s with app := f s.app }).1 = Outcome.ok a) :
    ((setApp f >>= fun _ => m >>= fun _ => (Pure.pure b : Exec β)) s).1 = Outcome.ok b := by
  simp only [Exec.bind_run, Exec.bind, setApp]
  rcases hm : m { s with app := f s.app } with ⟨o, t⟩
  rw [hm] at h
  cases o with
  | ok x => rfl
  | threw e => cases h
  | aborted w => cases h

theorem MsgProc_exitsizemove_eq (env : Env) (hwnd wParam lParam : Int) :
    MsgProc env hwnd WM_EXITSIZEMOVE wParam lParam =
      (setApp (fun a => { a with mAppPaused := false, mResizing := false }) >>= fun _ =>
        OnResize env >>= fun _ => (Pure.pure 0 : Exec Int)) := by
  simp [MsgProc, WM_EXITSIZEMOVE, WM_SIZE, WM_ACTIVATE, WM_ENTERSIZEMOVE]

/-- What `WM_EXITSIZEMOVE` does in every state and with every outcome of the
graphics calls. -/
theorem MsgProc_exitsizemove (env : Env) (hwnd wParam lParam : Int) (s : Sys) :
    (MsgProc env hwnd WM_EXITSIZEMOVE wParam lParam s).2.app.mResizing = false ∧
    (MsgProc env hwnd WM_EXITSIZEMOVE wParam lParam s).2.app.mAppPaused = false ∧
    (MsgProc env hwnd WM_EXITSIZEMOVE wParam lParam s).2.app.mClientWidth = s.app.mClientWidth ∧
    (MsgProc env hwnd WM_EXITSIZEMOVE wParam lParam s).2.app.mClientHeight = s.app.mClientHeight ∧
    (MsgProc env hwnd WM_EXITSIZEMOVE wParam lParam s).2.app.mMinimized = s.app.mMinimized ∧
    (MsgProc env hwnd WM_EXITSIZEMOVE wParam lParam s).2.app.mMaximized = s.app.mMaximized ∧
    onResizeCalls (MsgProc env hwnd WM_EXITSIZEMOVE wParam lParam s).2.log
      = onResizeCalls s.log + 1 := by
  rw [MsgProc_exitsizemove_eq, Exec.setApp_then_state]
  obtain ⟨h1, h2⟩ := OnResize_frame env
    { s with app := { s.app with mAppPaused := false, mResizing := false } }
  refine ⟨?_, ?_, ?_, ?_, ?_, ?_, h2⟩
  · simpa [D3DApp.outsideResize] using congrArg D3DApp.mResizing h1
  · simpa [D3DApp.outsideResize] using congrArg D3DApp.mAppPaused h1
  · simpa [D3DApp.outsideResize] using congrArg D3DApp.mClientWidth h1
  · simpa [D3DApp.outsideResize] using congrArg D3DApp.mClientHeight h1
  · simpa [D3DApp.outsideResize] using congrArg D3DApp.mMinimized h1
  · simpa [D3DApp.outsideResize] using congrArg D3DApp.mMaximized h1

/-- C1 (as amended): while the device exists and the resizing flag is set, a
`WM_SIZE` message that is neither `SIZE_MAXIMIZED` nor a `SIZE_RESTORED` out of
the minimized or maximized state makes no call at all: `OnResize` is not
entered and the render-target view, the depth-stencil buffer and view and the
viewport stay as they are, as does the flag; the following `WM_EXITSIZEMOVE`
clears the flag and enters `OnResize` exactly once. -/
theorem MsgProc_size_while_resizing (env : Env) (s : Sys) (hwnd wParam lParam : Int)
    (hdev : s.app.md3dDevice.isSome = true) (hres : s.app.mResizing = true)
    (hmax : wParam ≠ SIZE_MAXIMIZED)
    (hrest : wParam = SIZE_RESTORED → s.app.mMinimized = false ∧ s.app.mMaximized = false) :
    (MsgProc env hwnd WM_SIZE wParam lParam s).1 = Outcome.ok 0 ∧
    (MsgProc env hwnd WM_SIZE wParam lParam s).2.log = s.log ∧
    (MsgProc env hwnd WM_SIZE wParam lParam s).2.app.mRenderTargetView = s.app.mRenderTargetView ∧
    (MsgProc env hwnd WM_SIZE wParam lParam s).2.app.mDepthStencilBuffer
      = s.app.mDepthStencilBuffer ∧
    (MsgProc env hwnd WM_SIZE wParam lParam s).2.app.mDepthStencilView = s.app.mDepthStencilView ∧
    (MsgProc env hwnd WM_SIZE wParam lParam s).2.app.mScreenViewport = s.app.mScreenViewport ∧
    (MsgProc env hwnd WM_SIZE wParam lParam s).2.app.mResizing = true ∧
    ∀ (env2 : Env) (hwnd2 wParam2 lParam2 : Int),
      (MsgProc env2 hwnd2 WM_EXITSIZEMOVE wParam2 lParam2
        (MsgProc env hwnd WM_SIZE wParam lParam s).2).2.app.mResizing = false ∧
      onResizeCalls (MsgProc env2 hwnd2 WM_EXITSIZEMOVE wParam2 lParam2
        (MsgProc env hwnd WM_SIZE wParam lParam s).2).2.log = onResizeCalls s.log + 1 := by
  have key : MsgProc env hwnd WM_SIZE wParam lParam s =
      (Outcome.ok 0, { s with app :=
        if wParam = SIZE_MINIMIZED then
          { s.app with mClientWidth := LOWORD lParam, mClientHeight := HIWORD lParam,
                       mAppPaused := true, mMinimized := true, mMaximized := false }
        else { s.app with mClientWidth := LOWORD lParam, mClientHeight := HIWORD lParam } }) := by
    by_cases h1 : wParam = SIZE_MINIMIZED
    · simp [MsgProc, MsgProc.size, WM_SIZE, WM_ACTIVATE, Exec.bind, setApp, getApp, hdev, h1]
    · by_cases h2 : wParam = SIZE_RESTORED
      · obtain ⟨h3, h4⟩ := hrest h2
        simp [MsgProc, MsgProc.size, WM_SIZE, WM_ACTIVATE, Exec.bind, setApp, getApp, hdev, h1, h2,
          h3, h4, hres, hmax, SIZE_RESTORED, SIZE_MAXIMIZED, SIZE_MINIMIZED]
      · simp [MsgProc, MsgProc.size, WM_SIZE, WM_ACTIVATE, Exec.bind, setApp, getApp, hdev, h1, h2,
          hmax]
  rw [key]
  refine ⟨rfl, rfl, ?_, ?_, ?_, ?_, ?_, ?_⟩
  · split <;> rfl
  · split <;> rfl
  · split <;> rfl
  · split <;> rfl
  · split <;> simpa using hres
  · intro env2 hwnd2 wParam2 lParam2
    obtain ⟨h1, -, -, -, -, -, h2⟩ := MsgProc_exitsizemove env2 hwnd2 wParam2 lParam2
      { s with app :=
        if wParam = SIZE_MINIMIZED then
          { s.app with mClientWidth := LOWORD lParam, mClientHeight := HIWORD lParam,
                       mAppPaused := true, mMinimized := true, mMaximized := false }
        else { s.app with mClientWidth := LOWORD lParam, mClientHeight := HIWORD lParam } }
    exact ⟨h1, h2⟩

/-- A witness for `MsgProc_size_while_resizing`: a restore-type `WM_SIZE`
(1024 by 768) while the user drags the border of the initialised window. -/
theorem MsgProc_size_while_resizing_witness :
    (MsgProc okEnv 0 WM_SIZE SIZE_RESTORED (1024 + 65536 * 768) dragging).2.log = dragging.log :=
  (MsgProc_size_while_resizing okEnv dragging 0 SIZE_RESTORED (1024 + 65536 * 768)
    (by decide) (by decide) (by decide) (fun _ => by decide)).2.1

/-- C1 (as stated) fails: with the device created and the resizing flag set, a
`WM_SIZE` with `SIZE_MAXIMIZED` enters `OnResize` and replaces the
render-target view. -/
theorem MsgProc_size_maximized_while_resizing :
    dragging.app.md3dDevice.isSome = true ∧ dragging.app.mResizing = true ∧
    draggingMaximized.app.mResizing = true ∧
    onResizeCalls draggingMaximized.log = onResizeCalls dragging.log + 1 ∧
    draggingMaximized.app.mRenderTargetView ≠ dragging.app.mRenderTargetView := by
  decide

/-- C2 (as amended): when the device exists, a `WM_SIZE` with `SIZE_MINIMIZED`
returns 0 with paused = true, minimized = true, maximized = false, and makes no
call (`OnResize` is entered zero times). -/
theorem MsgProc_size_minimized (env : Env) (s : Sys) (hwnd lParam : Int)
    (hdev : s.app.md3dDevice.isSome = true) :
    (MsgProc env hwnd WM_SIZE SIZE_MINIMIZED lParam s).1 = Outcome.ok 0 ∧
    (MsgProc env hwnd WM_SIZE SIZE_MINIMIZED lParam s).2.app.mAppPaused = true ∧
    (MsgProc env hwnd WM_SIZE SIZE_MINIMIZED lParam s).2.app.mMinimized = true ∧
    (MsgProc env hwnd WM_SIZE SIZE_MINIMIZED lParam s).2.app.mMaximized = false ∧
    (MsgProc env hwnd WM_SIZE SIZE_MINIMIZED lParam s).2.log = s.log ∧
    onResizeCalls (MsgProc env hwnd WM_SIZE SIZE_MINIMIZED lParam s).2.log
      = onResizeCalls s.log := by
  simp [MsgProc, MsgProc.size, WM_SIZE, WM_ACTIVATE, Exec.bind, setApp, getApp, hdev]

/-- A witness for `MsgProc_size_minimized`: minimizing the initialised window. -/
theorem MsgProc_size_minimized_witness :
    (MsgProc okEnv 0 WM_SIZE SIZE_MINIMIZED 0 initialised).2.app.mMinimized = true :=
  (MsgProc_size_minimized okEnv initialised 0 0 (by decide)).2.2.1

/-- C2 (as stated) fails: before the device is created (the state the
constructor leaves), a `WM_SIZE` with `SIZE_MINIMIZED` records the size and
leaves paused and minimized at false. -/
theorem MsgProc_size_minimized_without_device :
    startSys.app.md3dDevice = none ∧
    (MsgProc okEnv 0 WM_SIZE SIZE_MINIMIZED 0 startSys).1 = Outcome.ok 0 ∧
    (MsgProc okEnv 0 WM_SIZE SIZE_MINIMIZED 0 startSys).2.app.mAppPaused = false ∧
    (MsgProc okEnv 0 WM_SIZE SIZE_MINIMIZED 0 startSys).2.app.mMinimized = false := by
  decide

/-! ## OnResize when the graphics calls succeed -/

theorem ThrowIfFailed_api_ok (env : Env) (c : Call) (out : COM → D3DApp → D3DApp) (text : String)
    (line : Int) (s : Sys) (h : 0 ≤ env.hr s.log.length) :
    ThrowIfFailed env (api env c out) text line s =
      (Outcome.ok (some s.log.length),
        { s with app := out (some s.log.length) s.app, log := s.log ++ [c] }) := by
  have h2 : ¬ env.hr s.log.length < 0 := not_lt.mpr h
  simp [ThrowIfFailed, api, call, setApp, Exec.bind, created, FAILED, h2]

set_option maxHeartbeats 1000000 in
/-- With device, context and swap chain in place and every graphics call from
now on succeeding, `OnResize` returns, stores the viewport and the
depth-stencil texture computed from the client size, and leaves both views
non-null. -/
theorem OnResize_ok (env : Env) (s : Sys) (hok : ∀ n, s.log.length ≤ n → 0 ≤ env.hr n)
    (hc : s.app.context.isSome = true) (hd : s.app.md3dDevice.isSome = true)
    (hs : s.app.mSwapChain.isSome = true) :
    (OnResize env s).1 = Outcome.ok () ∧
    (OnResize env s).2.app.mScreenViewport = screenViewport s.app ∧
    (OnResize env s).2.app.mDepthStencilBuffer.map (fun b => b.desc)
      = some (depthStencilDesc s.app) ∧
    (OnResize env s).2.app.mRenderTargetView.isSome = true ∧
    (OnResize env s).2.app.mDepthStencilView.isSome = true := by
  have hok2 : ∀ k, 0 ≤ env.hr (s.log.length + k) := fun k => hok _ (Nat.le_add_right _ _)
  cases h1 : s.app.mRenderTargetView <;> cases h2 : s.app.mDepthStencilView <;>
    cases h3 : s.app.mDepthStencilBuffer <;>
  simp [OnResize, OnResize.body, Exec.bind, emit, assert, getApp, hc, hd, hs, ReleaseCOM,
    ThrowIfFailed_api_ok, hok2, setApp, noMember, screenViewport, depthStencilDesc, sampleDesc,
    h1, h2, h3, Nat.add_assoc]

/-- C10 (as amended): `WM_ENTERSIZEMOVE` returns 0, sets resizing and paused
and changes nothing else (no call is made, so `OnResize` is entered zero
times).  `WM_EXITSIZEMOVE` clears resizing and paused, enters `OnResize`
exactly once and leaves the client size and the minimized and maximized flags
as they are; it returns 0 when `OnResize` completes, which it does when
device, context and swap chain exist and its graphics calls succeed. -/
theorem MsgProc_sizemove (env : Env) (s : Sys) (hwnd wParam lParam : Int) :
    MsgProc env hwnd WM_ENTERSIZEMOVE wParam lParam s =
      (Outcome.ok 0, { s with app := { s.app with mAppPaused := true, mResizing := true } }) ∧
    onResizeCalls (MsgProc env hwnd WM_ENTERSIZEMOVE wParam lParam s).2.log = onResizeCalls s.log ∧
    (MsgProc env hwnd WM_EXITSIZEMOVE wParam lParam s).2.app.mResizing = false ∧
    (MsgProc env hwnd WM_EXITSIZEMOVE wParam lParam s).2.app.mAppPaused = false ∧
    (MsgProc env hwnd WM_EXITSIZEMOVE wParam lParam s).2.app.mClientWidth = s.app.mClientWidth ∧
    (MsgProc env hwnd WM_EXITSIZEMOVE wParam lParam s).2.app.mClientHeight = s.app.mClientHeight ∧
    (MsgProc env hwnd WM_EXITSIZEMOVE wParam lParam s).2.app.mMinimized = s.app.mMinimized ∧
    (MsgProc env hwnd WM_EXITSIZEMOVE wParam lParam s).2.app.mMaximized = s.app.mMaximized ∧
    onResizeCalls (MsgProc env hwnd WM_EXITSIZEMOVE wParam lParam s).2.log
      = onResizeCalls s.log + 1 ∧
    (s.app.context.isSome = true → s.app.md3dDevice.isSome = true →
      s.app.mSwapChain.isSome = true → (∀ n, s.log.length ≤ n → 0 ≤ env.hr n) →
      (MsgProc env hwnd WM_EXITSIZEMOVE wParam lParam s).1 = Outcome.ok 0) := by
  have enter : MsgProc env hwnd WM_ENTERSIZEMOVE wParam lParam s =
      (Outcome.ok 0, { s with app := { s.app with mAppPaused := true, mResizing := true } }) := by
    simp [MsgProc, WM_ENTERSIZEMOVE, WM_SIZE, WM_ACTIVATE, Exec.bind, setApp]
  obtain ⟨h1, h2, h3, h4, h5, h6, h7⟩ := MsgProc_exitsizemove env hwnd wParam lParam s
  refine ⟨enter, by rw [enter], h1, h2, h3, h4, h5, h6, h7, ?_⟩
  intro hc hd hs hok
  rw [MsgProc_exitsizemove_eq]
  exact Exec.setApp_then_outcome _ _ _ _ ()
    (OnResize_ok env { s with app := { s.app with mAppPaused := false, mResizing := false } }
      hok hc hd hs).1

/-- A witness for `MsgProc_sizemove`: releasing the resize bars of the
initialised window returns 0. -/
theorem MsgProc_sizemove_witness :
    (MsgProc okEnv 0 WM_EXITSIZEMOVE 0 0 dragging).1 = Outcome.ok 0 :=
  (MsgProc_sizemove okEnv dragging 0 0 0).2.2.2.2.2.2.2.2.2 (by decide) (by decide) (by decide)
    (fun _ _ => Int.le_refl 0)

/-- C10 (as stated) fails: when the device has been removed and `ResizeBuffers`
fails, `WM_EXITSIZEMOVE` does not return 0: the `DxException` of line 151
leaves `MsgProc`. -/
theorem MsgProc_exitsizemove_throws :
    (InitDirect3D removedEnv startSys).1 = Outcome.ok true ∧
    (MsgProc removedEnv 0 WM_EXITSIZEMOVE 0 0 (InitDirect3D removedEnv startSys).2).1 =
      Outcome.threw
        { ErrorCode := -2005270523
          FunctionName :=
            "mSwapChain->ResizeBuffers(1, mClientWidth, mClientHeight, DXGI_FORMAT_R8G8B8A8_UNORM, 0)"
          Filename := "DirectXCrash.cpp"
          LineNumber := 151 } := by
  decide

/-! ## Running a computation step by step -/

theorem Exec.bind_emit {β : Type} (c : Call) (g : Unit → Exec β) (s : Sys) :
    Exec.bind (emit c) g s = g () { s with log := s.log ++ [c] } := rfl

theorem Exec.bind_pure {α β : Type} (a : α) (g : α → Exec β) (s : Sys) :
    Exec.bind (Pure.pure a) g s = g a s := rfl

theorem Exec.bind_OnResize_outcome {β : Type} (env : Env) (b : β) (s : Sys)
    (h : (OnResize env s).1 = Outcome.ok ()) :
    (Exec.bind (OnResize env) (fun _ => Pure.pure b) s).1 = Outcome.ok b := by
  unfold Exec.bind
  rcases hm : OnResize env s with ⟨o, t⟩
  rw [hm] at h
  cases o with
  | ok x => rfl
  | threw e => cases h
  | aborted w => cases h

/-! ## Which members each function writes -/

theorem floatOfInt_exact (w : Int) (h0 : 0 ≤ w) (h1 : w < 16777216) : floatOfInt w = (w : ℚ) := by
  have hn : w.natAbs < 16777216 := by omega
  have e : ((w.natAbs : Nat) : Int) = w := Int.natAbs_of_nonneg h0
  unfold floatOfInt roundTo24
  rw [if_pos h0, if_pos hn]
  have : ((w.natAbs : Nat) : ℚ) = (((w.natAbs : Nat) : Int) : ℚ) := (Int.cast_natCast _).symm
  rw [this, e]

theorem toUINT_exact (w : Int) (h0 : 0 ≤ w) (h1 : w < 4294967296) : ((toUINT w : Nat) : Int) = w := by
  unfold toUINT
  rw [Int.emod_eq_of_lt h0 h1, Int.toNat_of_nonneg h0]

/-- C4: when device, context and swap chain exist and the graphics calls of
`OnResize` succeed, `OnResize` returns with the viewport at TopLeftX = 0,
TopLeftY = 0, Width = mClientWidth and Height = mClientHeight (converted to
`float` by the assignment), MinDepth = 0, MaxDepth = 1; the depth-stencil
texture is described with Width = mClientWidth and Height = mClientHeight
(converted to `UINT`); and mClientWidth and mClientHeight are unchanged.  For
sizes from 0 up to 16777215 the conversions are exact, so the stored numbers
are the client width and height themselves. -/
theorem OnResize_viewport (env : Env) (s : Sys) (hd : s.app.md3dDevice.isSome = true)
    (hc : s.app.context.isSome = true) (hs : s.app.mSwapChain.isSome = true)
    (hok : ∀ n, s.log.length ≤ n → 0 ≤ env.hr n) :
    (OnResize env s).1 = Outcome.ok () ∧
    (OnResize env s).2.app.mScreenViewport.TopLeftX = 0 ∧
    (OnResize env s).2.app.mScreenViewport.TopLeftY = 0 ∧
    (OnResize env s).2.app.mScreenViewport.Width = floatOfInt s.app.mClientWidth ∧
    (OnResize env s).2.app.mScreenViewport.Height = floatOfInt s.app.mClientHeight ∧
    (OnResize env s).2.app.mScreenViewport.MinDepth = 0 ∧
    (OnResize env s).2.app.mScreenViewport.MaxDepth = 1 ∧
    (∃ b, (OnResize env s).2.app.mDepthStencilBuffer = some b ∧
      b.desc.Width = toUINT s.app.mClientWidth ∧ b.desc.Height = toUINT s.app.mClientHeight) ∧
    (OnResize env s).2.app.mClientWidth = s.app.mClientWidth ∧
    (OnResize env s).2.app.mClientHeight = s.app.mClientHeight ∧
    (0 ≤ s.app.mClientWidth → s.app.mClientWidth < 16777216 →
      (OnResize env s).2.app.mScreenViewport.Width = (s.app.mClientWidth : ℚ) ∧
      ∃ b, (OnResize env s).2.app.mDepthStencilBuffer = some b ∧
        ((b.desc.Width : Nat) : Int) = s.app.mClientWidth) ∧
    (0 ≤ s.app.mClientHeight → s.app.mClientHeight < 16777216 →
      (OnResize env s).2.app.mScreenViewport.Height = (s.app.mClientHeight : ℚ) ∧
      ∃ b, (OnResize env s).2.app.mDepthStencilBuffer = some b ∧
        ((b.desc.Height : Nat) : Int) = s.app.mClientHeight) := by
  obtain ⟨h1, h2, h3, -, -⟩ := OnResize_ok env s hok hc hd hs
  obtain ⟨hf, -⟩ := OnResize_frame env s
  have hw : (OnResize env s).2.app.mClientWidth = s.app.mClientWidth := by
    simpa [D3DApp.outsideResize] using congrArg D3DApp.mClientWidth hf
  have hh : (OnResize env s).2.app.mClientHeight = s.app.mClientHeight := by
    simpa [D3DApp.outsideResize] using congrArg D3DApp.mClientHeight hf
  have hb : ∃ b, (OnResize env s).2.app.mDepthStencilBuffer = some b ∧
      b.desc = depthStencilDesc s.app := by
    cases hbuf : (OnResize env s).2.app.mDepthStencilBuffer with
    | none => rw [hbuf] at h3; cases h3
    | some b =>
      rw [hbuf] at h3
      exact ⟨b, rfl, by simpa using h3⟩
  obtain ⟨b, hb1, hb2⟩ := hb
  refine ⟨h1, ?_, ?_, ?_, ?_, ?_, ?_, ⟨b, hb1, ?_, ?_⟩, hw, hh, ?_, ?_⟩
  · rw [h2]; rfl
  · rw [h2]; rfl
  · rw [h2]; rfl
  · rw [h2]; rfl
  · rw [h2]; rfl
  · rw [h2]; rfl
  · rw [hb2]; rfl
  · rw [hb2]; rfl
  · intro h0 hlt
    refine ⟨?_, b, hb1, ?_⟩
    · rw [h2]
      exact floatOfInt_exact _ h0 hlt
    · rw [hb2]
      exact toUINT_exact _ h0 (by omega)
  · intro h0 hlt
    refine ⟨?_, b, hb1, ?_⟩
    · rw [h2]
      exact floatOfInt_exact _ h0 hlt
    · rw [hb2]
      exact toUINT_exact _ h0 (by omega)

/-- A witness for `OnResize_viewport`: a resize of the initialised 800 by 600
window gives a viewport 800 wide. -/
theorem OnResize_viewport_witness :
    (OnResize okEnv initialised).2.app.mScreenViewport.Width = (initialised.app.mClientWidth : ℚ) :=
  ((OnResize_viewport okEnv initialised (by decide) (by decide) (by decide)
    (fun _ _ => Int.le_refl 0)).2.2.2.2.2.2.2.2.2.2.1 (by decide) (by decide)).1

/-! ## InitDirect3D when the graphics calls succeed -/

/-- C7: `ThrowIfFailed` throws exactly when the HRESULT of the wrapped
expression is negative and otherwise hands on what the expression produced.
The exception carries the HRESULT, the text of the expression, the file name
and the line, and its `ToString` is the expression text, " failed in ", the
file name, "; line ", the line number in decimal, "; error: " and the system
error text, in this order; so the expression text and the decimal line number
occur in the message. -/
theorem ThrowIfFailed_message {β : Type} (env : Env) (x : Exec (Int × β)) (hr : Int) (v : β)
    (text : String) (file : String) (line : Int) (s t : Sys)
    (hx : x s = (Outcome.ok (hr, v), t)) :
    ((∃ e, (ThrowIfFailed env x text line s).1 = Outcome.threw e) ↔ hr < 0) ∧
    (¬ hr < 0 → ThrowIfFailed env x text line s = (Outcome.ok v, t)) ∧
    (hr < 0 → ThrowIfFailed env x text line s =
      (Outcome.threw { ErrorCode := hr, FunctionName := text,
                       Filename := AnsiToWString env env.FILE, LineNumber := line }, t)) ∧
    DxException.ToString env
        { ErrorCode := hr, FunctionName := text, Filename := file, LineNumber := line }
      = text ++ " failed in " ++ file ++ "; line " ++ toString line ++ "; error: "
          ++ env.ErrorMessage hr ∧
    text.data <:+: (DxException.ToString env
        { ErrorCode := hr, FunctionName := text, Filename := file, LineNumber := line }).data ∧
    (toString line).data <:+: (DxException.ToString env
        { ErrorCode := hr, FunctionName := text, Filename := file, LineNumber := line }).data := by
  have hneg : hr < 0 → ThrowIfFailed env x text line s =
      (Outcome.threw { ErrorCode := hr, FunctionName := text,
                       Filename := AnsiToWString env env.FILE, LineNumber := line }, t) := by
    intro h
    simp [ThrowIfFailed, Exec.bind, hx, FAILED, h, throw]
  have hpos : ¬ hr < 0 → ThrowIfFailed env x text line s = (Outcome.ok v, t) := by
    intro h
    simp [ThrowIfFailed, Exec.bind, hx, FAILED, h]
  refine ⟨?_, hpos, hneg, rfl, ?_, ?_⟩
  · constructor
    · rintro ⟨e, he⟩
      by_contra h
      rw [hpos h] at he
      cases he
    · intro h
      exact ⟨_, by rw [hneg h]⟩
  · refine ⟨[], (" failed in " ++ file ++ "; line " ++ toString line ++ "; error: "
      ++ env.ErrorMessage hr).data, ?_⟩
    simp [DxException.ToString, String.data_append]
  · refine ⟨(text ++ " failed in " ++ file ++ "; line ").data,
      ("; error: " ++ env.ErrorMessage hr).data, ?_⟩
    simp [DxException.ToString, String.data_append]

/-- A witness for `ThrowIfFailed_message`: `E_FAIL` makes `ThrowIfFailed`
throw. -/
theorem ThrowIfFailed_message_witness :
    ∃ e, (ThrowIfFailed okEnv (Pure.pure (-2147467259, ()) : Exec (Int × Unit))
      "mSwapChain->Present(0, 0)" 117 startSys).1 = Outcome.threw e :=
  (ThrowIfFailed_message okEnv (Pure.pure (-2147467259, ())) (-2147467259) ()
    "mSwapChain->Present(0, 0)" "DirectXCrash.cpp" 117 startSys startSys rfl).1.mpr (by decide)

/-! ## The quad written by CreateVertexBuffer -/

theorem floatOfInt_exact_abs (w : Int) (h : w.natAbs < 16777216) : floatOfInt w = (w : ℚ) := by
  by_cases h0 : 0 ≤ w
  · exact floatOfInt_exact w h0 (by omega)
  · have e : ((w.natAbs : Nat) : Int) = -w := by omega
    unfold floatOfInt roundTo24
    rw [if_neg h0, if_pos h]
    have : ((w.natAbs : Nat) : ℚ) = (((w.natAbs : Nat) : Int) : ℚ) := (Int.cast_natCast _).symm
    rw [this, e]
    simp

/-- C6: `CreateVertexBuffer` (device and context in place, its two graphics
calls succeeding) creates the buffer, maps it and copies four vertices into it,
in this order: top-left with position (left, top, 0) and UV (u0, v0),
top-right with position (right, top, 0) and UV (u1, v0), bottom-left with
position (left, bottom, 0) and UV (u0, v1), bottom-right with position
(right, bottom, 0) and UV (u1, v1); the integer coordinates are converted to
`float` by the assignment, which is exact below 2^24.  `InitDirect3D` copies
the quad of the rectangle (0, 0, 1600, 900) with UV corners (0,0)-(1,1):
positions (0,0), (1600,0), (0,900), (1600,900) and UVs (0,0), (1,0), (0,1),
(1,1). -/
theorem CreateVertexBuffer_quad (env : Env) (s : Sys) (rectangle : RECT) (uv0 uv1 : POINTF)
    (hd : s.app.md3dDevice.isSome = true) (hc : s.app.context.isSome = true)
    (hok : ∀ n, s.log.length ≤ n → 0 ≤ env.hr n) :
    CreateVertexBuffer env rectangle uv0 uv1 s =
      (Outcome.ok (some s.log.length),
        { s with log := s.log ++
          [ Call.CreateBuffer { ByteWidth := 96, Usage := D3D11_USAGE.DYNAMIC,
                                BindFlags := D3D11_BIND.VERTEX_BUFFER, CPUAccessWrite := true },
            Call.Map (some s.log.length),
            Call.memcpy (some s.log.length) (quadData rectangle uv0 uv1 env.stack) 96,
            Call.Unmap (some s.log.length) ] }) ∧
    (∀ data : Fin 4 → VertexPositionTexture,
      ((quadData rectangle uv0 uv1 data 0).Position 0 = floatOfInt rectangle.left ∧
        (quadData rectangle uv0 uv1 data 0).Position 1 = floatOfInt rectangle.top ∧
        (quadData rectangle uv0 uv1 data 0).Position 2 = 0 ∧
        (quadData rectangle uv0 uv1 data 0).TexCoord 0 = uv0.x ∧
        (quadData rectangle uv0 uv1 data 0).TexCoord 1 = uv0.y) ∧
      ((quadData rectangle uv0 uv1 data 1).Position 0 = floatOfInt rectangle.right ∧
        (quadData rectangle uv0 uv1 data 1).Position 1 = floatOfInt rectangle.top ∧
        (quadData rectangle uv0 uv1 data 1).Position 2 = 0 ∧
        (quadData rectangle uv0 uv1 data 1).TexCoord 0 = uv1.x ∧
        (quadData rectangle uv0 uv1 data 1).TexCoord 1 = uv0.y) ∧
      ((quadData rectangle uv0 uv1 data 2).Position 0 = floatOfInt rectangle.left ∧
        (quadData rectangle uv0 uv1 data 2).Position 1 = floatOfInt rectangle.bottom ∧
        (quadData rectangle uv0 uv1 data 2).Position 2 = 0 ∧
        (quadData rectangle uv0 uv1 data 2).TexCoord 0 = uv0.x ∧
        (quadData rectangle uv0 uv1 data 2).TexCoord 1 = uv1.y) ∧
      ((quadData rectangle uv0 uv1 data 3).Position 0 = floatOfInt rectangle.right ∧
        (quadData rectangle uv0 uv1 data 3).Position 1 = floatOfInt rectangle.bottom ∧
        (quadData rectangle uv0 uv1 data 3).Position 2 = 0 ∧
        (quadData rectangle uv0 uv1 data 3).TexCoord 0 = uv1.x ∧
        (quadData rectangle uv0 uv1 data 3).TexCoord 1 = uv1.y)) ∧
    (∀ i : Int, i.natAbs < 16777216 → floatOfInt i = (i : ℚ)) ∧
    (∀ data : Fin 4 → VertexPositionTexture,
      ((quadData ⟨0, 0, 1600, 900⟩ ⟨0, 0⟩ ⟨1, 1⟩ data 0).Position 0 = 0 ∧
        (quadData ⟨0, 0, 1600, 900⟩ ⟨0, 0⟩ ⟨1, 1⟩ data 0).Position 1 = 0 ∧
        (quadData ⟨0, 0, 1600, 900⟩ ⟨0, 0⟩ ⟨1, 1⟩ data 0).TexCoord 0 = 0 ∧
        (quadData ⟨0, 0, 1600, 900⟩ ⟨0, 0⟩ ⟨1, 1⟩ data 0).TexCoord 1 = 0) ∧
      ((quadData ⟨0, 0, 1600, 900⟩ ⟨0, 0⟩ ⟨1, 1⟩ data 1).Position 0 = 1600 ∧
        (quadData ⟨0, 0, 1600, 900⟩ ⟨0, 0⟩ ⟨1, 1⟩ data 1).Position 1 = 0 ∧
        (quadData ⟨0, 0, 1600, 900⟩ ⟨0, 0⟩ ⟨1, 1⟩ data 1).TexCoord 0 = 1 ∧
        (quadData ⟨0, 0, 1600, 900⟩ ⟨0, 0⟩ ⟨1, 1⟩ data 1).TexCoord 1 = 0) ∧
      ((quadData ⟨0, 0, 1600, 900⟩ ⟨0, 0⟩ ⟨1, 1⟩ data 2).Position 0 = 0 ∧
        (quadData ⟨0, 0, 1600, 900⟩ ⟨0, 0⟩ ⟨1, 1⟩ data 2).Position 1 = 900 ∧
        (quadData ⟨0, 0, 1600, 900⟩ ⟨0, 0⟩ ⟨1, 1⟩ data 2).TexCoord 0 = 0 ∧
        (quadData ⟨0, 0, 1600, 900⟩ ⟨0, 0⟩ ⟨1, 1⟩ data 2).TexCoord 1 = 1) ∧
      ((quadData ⟨0, 0, 1600, 900⟩ ⟨0, 0⟩ ⟨1, 1⟩ data 3).Position 0 = 1600 ∧
        (quadData ⟨0, 0, 1600, 900⟩ ⟨0, 0⟩ ⟨1, 1⟩ data 3).Position 1 = 900 ∧
        (quadData ⟨0, 0, 1600, 900⟩ ⟨0, 0⟩ ⟨1, 1⟩ data 3).TexCoord 0 = 1 ∧
        (quadData ⟨0, 0, 1600, 900⟩ ⟨0, 0⟩ ⟨1, 1⟩ data 3).TexCoord 1 = 1)) ∧
    initialised.log.get? 34 =
      some (Call.memcpy (some 32) (quadData ⟨0, 0, 1600, 900⟩ ⟨0, 0⟩ ⟨1, 1⟩ okEnv.stack) 96) := by
  have hok0 : 0 ≤ env.hr s.log.length := hok _ (Nat.le_refl _)
  have hok1 : 0 ≤ env.hr (s.log.length + 1) := hok _ (Nat.le_add_right _ _)
  have hf : ∀ i : Int, i.natAbs < 16777216 → floatOfInt i = (i : ℚ) := floatOfInt_exact_abs
  have h1600 : floatOfInt 1600 = 1600 := by simpa using hf 1600 (by decide)
  have h900 : floatOfInt 900 = 900 := by simpa using hf 900 (by decide)
  have h0 : floatOfInt 0 = 0 := by simpa using hf 0 (by decide)
  refine ⟨?_, ?_, hf, ?_, rfl⟩
  · simp [CreateVertexBuffer, Exec.bind, getApp, deref, emit, hd, hc, ThrowIfFailed_api_ok, hok0,
      hok1, noMember, sizeofVertexPositionTexture]
  · intro data
    simp [quadData, setPosition, setTexCoord, Function.update]
  · intro data
    simp [quadData, setPosition, setTexCoord, Function.update, h1600, h900, h0]

/-- A witness for `CreateVertexBuffer_quad`: a second quad created on the
initialised application. -/
theorem CreateVertexBuffer_quad_witness :
    (CreateVertexBuffer okEnv ⟨0, 0, 1600, 900⟩ ⟨0, 0⟩ ⟨1, 1⟩ initialised).1
      = Outcome.ok (some initialised.log.length) :=
  congrArg Prod.fst (CreateVertexBuffer_quad okEnv initialised ⟨0, 0, 1600, 900⟩ ⟨0, 0⟩ ⟨1, 1⟩
    (by decide) (by decide) (fun _ _ => Int.le_refl 0)).1

/-! ## The message loop -/

theorem ThrowsOnFailure.same {α : Type} (env : Env) (s : Sys) (o : Outcome α) :
    ThrowsOnFailure env s (o, s) :=
  ⟨[], by simp, by intro i c h; simp at h⟩

theorem ThrowsOnFailure.unchecked {α : Type} (env : Env) (s t : Sys) (o : Outcome α) (c : Call)
    (hc : c.checked = false) (ht : t.log = s.log ++ [c]) : ThrowsOnFailure env s (o, t) := by
  refine ⟨[c], ht, ?_⟩
  intro i d h hd
  cases i with
  | zero =>
    simp at h
    subst h
    rw [hc] at hd
    cases hd
  | succ i => simp at h

theorem sound_pure {α : Type} (env : Env) (a : α) : Sound env (Pure.pure a : Exec α) :=
  ⟨fun s => ThrowsOnFailure.same env s _⟩

theorem sound_getApp (env : Env) : Sound env getApp :=
  ⟨fun s => ThrowsOnFailure.same env s _⟩

theorem sound_setApp (env : Env) (f : D3DApp → D3DApp) : Sound env (setApp f) :=
  ⟨fun s => ⟨[], by simp [DirectXCrash.setApp], by intro i c h; simp at h⟩⟩

theorem sound_assert (env : Env) (c : Bool) (e : String) : Sound env (assert c e) := by
  constructor
  intro s
  cases c <;> exact ThrowsOnFailure.same env s _

theorem sound_deref (env : Env) (p : COM) (e : String) : Sound env (deref p e) := by
  constructor
  intro s
  cases p <;> exact ThrowsOnFailure.same env s _

theorem sound_emit (env : Env) {c : Call} (hc : c.checked = false) : Sound env (emit c) :=
  ⟨fun s => ThrowsOnFailure.unchecked env s _ _ c hc rfl⟩

theorem sound_call (env : Env) {c : Call} (hc : c.checked = false) : Sound env (call env c) :=
  ⟨fun s => ThrowsOnFailure.unchecked env s _ _ c hc rfl⟩

theorem sound_bind {α β : Type} {env : Env} {m : Exec α} {f : α → Exec β} (hm : Sound env m)
    (hf : ∀ a, Sound env (f a)) : Sound env (m >>= f) := by
  constructor
  intro s
  obtain ⟨l1, hl1, h1⟩ := hm.run s
  simp only [Exec.bind_run, Exec.bind]
  rcases hms : m s with ⟨o, t⟩
  rw [hms] at hl1 h1
  cases o with
  | ok a =>
    obtain ⟨l2, hl2, h2⟩ := (hf a).run t
    refine ⟨l1 ++ l2, ?_, ?_⟩
    · show (f a t).2.log = s.log ++ (l1 ++ l2)
      rw [hl2]
      simp only at hl1
      rw [hl1, List.append_assoc]
    · intro i c hget hc hr
      by_cases hi : i < l1.length
      · rw [List.getElem?_append_left hi] at hget
        obtain ⟨e, he, -⟩ := h1 i c hget hc hr
        cases he
      · have hi2 : l1.length ≤ i := Nat.le_of_not_lt hi
        rw [List.getElem?_append_right hi2] at hget
        have hlen : t.log.length = s.log.length + l1.length := by
          simp only at hl1
          rw [hl1, List.length_append]
        have hidx : t.log.length + (i - l1.length) = s.log.length + i := by omega
        have := h2 (i - l1.length) c hget hc (by rw [hidx]; exact hr)
        rw [hidx] at this
        exact this
  | threw e =>
    show ThrowsOnFailure env s (Outcome.threw e, t)
    refine ⟨l1, hl1, fun i c hget hc hr => ?_⟩
    obtain ⟨e2, he, h3, h4⟩ := h1 i c hget hc hr
    cases he
    exact ⟨e, rfl, h3, h4⟩
  | aborted w =>
    show ThrowsOnFailure env s (Outcome.aborted w, t)
    refine ⟨l1, hl1, fun i c hget hc hr => ?_⟩
    obtain ⟨e2, he, -⟩ := h1 i c hget hc hr
    cases he

theorem sound_ite {α : Type} {env : Env} (c : Prop) [Decidable c] {m1 m2 : Exec α}
    (h1 : Sound env m1) (h2 : Sound env m2) : Sound env (if c then m1 else m2) := by
  split
  · exact h1
  · exact h2

theorem sound_ReleaseCOM (env : Env) (p : COM) (clear : D3DApp → D3DApp) :
    Sound env (ReleaseCOM p clear) := by
  cases p with
  | none => exact sound_pure env _
  | some n => exact sound_bind (sound_emit env rfl) (fun _ => sound_setApp env clear)

/-- A wrapped expression that makes exactly one call and has its HRESULT as
value. -/
theorem sound_ThrowIfFailed {β : Type} (env : Env) (x : Exec (Int × β)) (c : Call) (text : String)
    (line : Int)
    (hx : ∀ s, ∃ v t, x s = (Outcome.ok (env.hr s.log.length, v), t) ∧ t.log = s.log ++ [c]) :
    Sound env (DirectXCrash.ThrowIfFailed env x text line) := by
  constructor
  intro s
  obtain ⟨v, t, hxs, ht⟩ := hx s
  by_cases hr : env.hr s.log.length < 0
  · have e : DirectXCrash.ThrowIfFailed env x text line s =
        (Outcome.threw { ErrorCode := env.hr s.log.length, FunctionName := text,
                         Filename := AnsiToWString env env.FILE, LineNumber := line }, t) := by
      simp [DirectXCrash.ThrowIfFailed, Exec.bind, hxs, FAILED, hr, throw]
    rw [e]
    refine ⟨[c], ht, ?_⟩
    intro i d h _ _
    cases i with
    | zero => exact ⟨_, rfl, rfl, rfl⟩
    | succ i => simp at h
  · have e : DirectXCrash.ThrowIfFailed env x text line s = (Outcome.ok v, t) := by
      simp [DirectXCrash.ThrowIfFailed, Exec.bind, hxs, FAILED, hr]
    rw [e]
    refine ⟨[c], ht, ?_⟩
    intro i d h _ hneg
    cases i with
    | zero => exact absurd hneg hr
    | succ i => simp at h

theorem sound_ThrowIfFailed_api (env : Env) (c : Call) (out : COM → D3DApp → D3DApp)
    (text : String) (line : Int) :
    Sound env (DirectXCrash.ThrowIfFailed env (DirectXCrash.api env c out) text line) :=
  sound_ThrowIfFailed env _ c text line (fun _ => ⟨_, _, rfl, rfl⟩)

theorem sound_api (env : Env) {c : Call} (out : COM → D3DApp → D3DApp) (hc : c.checked = false) :
    Sound env (DirectXCrash.api env c out) :=
  ⟨fun s => ThrowsOnFailure.unchecked env s _ _ c hc rfl⟩

theorem OnResize_sound (env : Env) : Sound env (OnResize env) := by
  unfold OnResize OnResize.body
  repeat' (first
    | apply sound_ThrowIfFailed_api
    | apply sound_getApp
    | apply sound_setApp
    | apply sound_assert
    | apply sound_ReleaseCOM
    | apply sound_emit
    | apply sound_pure
    | apply sound_bind
    | intro _)
  all_goals rfl

theorem CreateConstantBuffer_sound (env : Env) (bufferSize : Int) :
    Sound env (CreateConstantBuffer env bufferSize) := by
  unfold CreateConstantBuffer
  repeat' (first
    | apply sound_ThrowIfFailed_api
    | apply sound_getApp
    | apply sound_deref
    | apply sound_pure
    | apply sound_bind
    | intro _)

theorem CreateShader_sound (env : Env) (filename : String) (bufferSize : Int) :
    Sound env (CreateShader env filename bufferSize) := by
  unfold CreateShader
  repeat' (first
    | apply CreateConstantBuffer_sound
    | apply sound_ThrowIfFailed_api
    | apply sound_getApp
    | apply sound_deref
    | apply sound_pure
    | apply sound_bind
    | intro _)

theorem CreateVertexBuffer_sound (env : Env) (r : RECT) (tl br : POINTF) :
    Sound env (CreateVertexBuffer env r tl br) := by
  unfold CreateVertexBuffer
  repeat' (first
    | apply sound_ThrowIfFailed_api
    | apply sound_getApp
    | apply sound_deref
    | apply sound_emit
    | apply sound_pure
    | apply sound_bind
    | intro _)
  all_goals rfl

theorem InitDirect3D_sound (env : Env) : Sound env (InitDirect3D env) := by
  unfold InitDirect3D InitDirect3D.rest
  repeat' (first
    | apply OnResize_sound
    | apply CreateShader_sound
    | apply CreateVertexBuffer_sound
    | apply sound_ThrowIfFailed_api
    | exact sound_ThrowIfFailed env _ (Call.CheckMultisampleQualityLevels DXGI_FORMAT.R8G8B8A8_UNORM 4)
        _ _ (fun s => ⟨_, _, rfl, rfl⟩)
    | apply sound_api
    | apply sound_call
    | apply sound_getApp
    | apply sound_setApp
    | apply sound_assert
    | apply sound_ReleaseCOM
    | apply sound_emit
    | apply sound_pure
    | apply sound_ite
    | apply sound_bind
    | intro _)
  all_goals rfl

/-- C8 (as amended): for every graphics call that `InitDirect3D` makes under
`ThrowIfFailed` (the multisample query, the DXGI factory lookups, swap-chain
creation, and the calls inside `OnResize`, `CreateShader` and
`CreateVertexBuffer`), if that call returns a failure HRESULT then
`InitDirect3D` throws the `DxException` carrying that HRESULT and the file
name instead of returning.  When `D3D11CreateDevice` fails, `InitDirect3D`
shows a message box and returns false. -/
theorem InitDirect3D_throws (env : Env) (s : Sys) :
    (∀ n c, s.log.length ≤ n → (InitDirect3D env s).2.log[n]? = some c → c.checked = true →
      env.hr n < 0 →
      ∃ e, (InitDirect3D env s).1 = Outcome.threw e ∧ e.ErrorCode = env.hr n ∧
        e.Filename = AnsiToWString env env.FILE) ∧
    (env.hr s.log.length < 0 →
      InitDirect3D env s =
        (Outcome.ok false,
          { s with app := { s.app with md3dDevice := none, context := none },
                   log := s.log ++ [Call.D3D11CreateDevice,
                     Call.MessageBox "D3D11CreateDevice Failed."] })) := by
  refine ⟨?_, ?_⟩
  · intro n c hn hget hc hr
    obtain ⟨l, hl, h⟩ := (InitDirect3D_sound env).run s
    rw [hl, List.getElem?_append_right hn] at hget
    have := h (n - s.log.length) c hget hc (by rw [Nat.add_sub_cancel' hn]; exact hr)
    rw [Nat.add_sub_cancel' hn] at this
    exact this
  · intro hr
    simp [InitDirect3D, Exec.bind, call, setApp, emit, created, FAILED, hr]

/-- A witness for `InitDirect3D_throws`: `ResizeBuffers` (the call at position
10) fails and `InitDirect3D` throws. -/
theorem InitDirect3D_throws_witness :
    ∃ e, (InitDirect3D resizeFailsEnv startSys).1 = Outcome.threw e ∧
      e.ErrorCode = -2005270527 ∧ e.Filename = "DirectXCrash.cpp" :=
  (InitDirect3D_throws resizeFailsEnv startSys).1 10
    (Call.ResizeBuffers 1 800 600 DXGI_FORMAT.R8G8B8A8_UNORM 0) (by decide) (by rfl) rfl
    (by decide)

/-- C8 (as stated) fails: when `D3D11CreateDevice` returns `E_FAIL`,
`InitDirect3D` throws nothing; it shows a message box and returns false. -/
theorem InitDirect3D_without_device :
    noDeviceEnv.hr 0 < 0 ∧
    (InitDirect3D noDeviceEnv startSys).2.log[0]? = some Call.D3D11CreateDevice ∧
    (InitDirect3D noDeviceEnv startSys).1 = Outcome.ok false ∧
    (InitDirect3D noDeviceEnv startSys).2.log[1]?
      = some (Call.MessageBox "D3D11CreateDevice Failed.") := by
  refine ⟨by decide, rfl, rfl, rfl⟩

/-! ## WM_GETMINMAXINFO -/

/-- C11: for every application state and every `MINMAXINFO` record behind
`lParam`, `MsgProc` on `WM_GETMINMAXINFO` returns 0 and sets the minimum track
size of that record to x = 200, y = 200, whatever it was; the other fields of
the record, the records at other addresses, every member of the application
object and the log (no call is made) are unchanged. -/
theorem MsgProc_getminmaxinfo (env : Env) (s : Sys) (hwnd wParam lParam : Int) :
    MsgProc env hwnd WM_GETMINMAXINFO wParam lParam s =
      (Outcome.ok 0,
        { s with minmax := (Function.update s.minmax lParam
          { (s.minmax lParam) with ptMinTrackSize := { x := 200, y := 200 } }) }) ∧
    ((MsgProc env hwnd WM_GETMINMAXINFO wParam lParam s).2.minmax lParam).ptMinTrackSize
      = { x := 200, y := 200 } ∧
    ((MsgProc env hwnd WM_GETMINMAXINFO wParam lParam s).2.minmax lParam).ptReserved
      = (s.minmax lParam).ptReserved ∧
    ((MsgProc env hwnd WM_GETMINMAXINFO wParam lParam s).2.minmax lParam).ptMaxSize
      = (s.minmax lParam).ptMaxSize ∧
    ((MsgProc env hwnd WM_GETMINMAXINFO wParam lParam s).2.minmax lParam).ptMaxPosition
      = (s.minmax lParam).ptMaxPosition ∧
    ((MsgProc env hwnd WM_GETMINMAXINFO wParam lParam s).2.minmax lParam).ptMaxTrackSize
      = (s.minmax lParam).ptMaxTrackSize ∧
    (MsgProc env hwnd WM_GETMINMAXINFO wParam lParam s).2.app = s.app ∧
    (MsgProc env hwnd WM_GETMINMAXINFO wParam lParam s).2.log = s.log := by
  have key : MsgProc env hwnd WM_GETMINMAXINFO wParam lParam s =
      (Outcome.ok 0,
        { s with minmax := (Function.update s.minmax lParam
          { (s.minmax lParam) with ptMinTrackSize := { x := 200, y := 200 } }) }) := by
    simp [MsgProc, WM_GETMINMAXINFO, WM_ACTIVATE, WM_SIZE, WM_ENTERSIZEMOVE, WM_EXITSIZEMOVE,
      WM_DESTROY, WM_MENUCHAR, Exec.bind, setMinMaxInfo]
  rw [key]
  simp

/-! ## The input layout and the vertex record -/

/-- C12 fails on the code: the input layout declares POSITION at byte 0, which
is the offset of `Position`, and TEXCOORD at byte 12, while `TexCoord` lies at
byte 16, behind the four floats of `Position` (the record is 24 bytes, the
stride of `Run`).  For every quad of `CreateVertexBuffer` the POSITION element
is (Position[0], Position[1], Position[2]), but the TEXCOORD element is
(Position[3], TexCoord[0]): a float that `CreateVertexBuffer` never assigns
and the first texture coordinate.  In the top-right vertex of the quad of
`InitDirect3D`, whose `TexCoord` is (1, 0), the TEXCOORD element is
(unassigned, 1). -/
theorem quadLayout_texcoord_misaligned :
    quadLayout.map (fun e => (e.SemanticName, e.AlignedByteOffset))
      = [("POSITION", 0), ("TEXCOORD", 12)] ∧
    offsetofPosition = 0 ∧ offsetofTexCoord = 16 ∧ sizeofVertexPositionTexture = 24 ∧
    (∀ (rectangle : RECT) (uv0 uv1 : POINTF) (data : Fin 4 → VertexPositionTexture) (i : Fin 4),
      quadLayout.map (fun e => fetchElement e (quadData rectangle uv0 uv1 data i)) =
        [ [ (quadData rectangle uv0 uv1 data i).Position 0,
            (quadData rectangle uv0 uv1 data i).Position 1,
            (quadData rectangle uv0 uv1 data i).Position 2 ],
          [ (quadData rectangle uv0 uv1 data i).Position 3,
            (quadData rectangle uv0 uv1 data i).TexCoord 0 ] ] ∧
      (quadData rectangle uv0 uv1 data i).Position 3 = (data i).Position 3) ∧
    (∀ data : Fin 4 → VertexPositionTexture,
      quadLayout.map (fun e => fetchElement e (quadData ⟨0, 0, 1600, 900⟩ ⟨0, 0⟩ ⟨1, 1⟩ data 1)) =
        [[1600, 0, 0], [(data 1).Position 3, 1]] ∧
      [ (quadData ⟨0, 0, 1600, 900⟩ ⟨0, 0⟩ ⟨1, 1⟩ data 1).TexCoord 0,
        (quadData ⟨0, 0, 1600, 900⟩ ⟨0, 0⟩ ⟨1, 1⟩ data 1).TexCoord 1 ] = [1, 0] ∧
      [(data 1).Position 3, (1 : float)] ≠ [1, 0]) := by
  refine ⟨rfl, rfl, rfl, rfl, ?_, ?_⟩
  · intro rectangle uv0 uv1 data i
    refine ⟨rfl, ?_⟩
    fin_cases i <;> simp [quadData, setPosition, setTexCoord, Function.update]
  · intro data
    refine ⟨?_, ?_, ?_⟩
    · simp [quadLayout, fetchElement, VertexPositionTexture.floats, DXGI_FORMAT.byteSize,
        sizeofFloat, quadData, setPosition, setTexCoord, Function.update,
        floatOfInt_exact_abs]
    · simp [quadData, setPosition, setTexCoord, Function.update]
    · simp

end DirectXCrash
